import Mathlib

set_option maxRecDepth 40000
set_option autoImplicit false

/-!
Verification of the GlovePost deduplication/quality filter and recommendation
engines against their specification.

The development shallowly embeds the Python sources:

* `CF`: `scripts/content_filter.py` (quality scoring, duplicate detection,
  the `process_content` batch loop);
* `RE`: `scripts/recommendation_engine.py` (heuristic scoring `recommend`
  and its CLI entry point);
* `ML`: `scripts/ml_recommendation_engine.py` (interaction weighting,
  candidate generation, diversity-constrained selection).

Results of external libraries that the scripts call (TF-IDF cosine
similarity, `difflib` title ratios, NLTK sentence statistics, `math.exp`
freshness decay, the trained LightGBM model) are modelled as explicit
inputs/oracles; everything the repository itself computes is translated
directly.  Machine floats are modelled as exact rationals.
-/

namespace GlovePost

/-! ## Text primitives

Character-level helpers mirroring the Python string operations used by the
scripts (`str.lower`, `str.strip`, `phrase in text`, `str.endswith`).
Strings are processed through their character lists so that every
definition evaluates by kernel reduction. -/

/-- Lower-case a single ASCII character, as `str.lower` does on ASCII text. -/
def lowerChar (c : Char) : Char :=
  if 'A' ≤ c ∧ c ≤ 'Z' then Char.ofNat (c.toNat + 32) else c

/-- Python `str.lower` on ASCII text. -/
def lower (s : String) : String := ⟨s.data.map lowerChar⟩

/-- Whitespace recognised by Python `str.strip`. -/
def isSpaceChar (c : Char) : Bool := c == ' ' || c == '\t' || c == '\n' || c == '\r'

/-- Python `str.strip`. -/
def pyStrip (s : String) : String :=
  ⟨((s.data.dropWhile isSpaceChar).reverse.dropWhile isSpaceChar).reverse⟩

/-- Does the second list occur as a prefix of the first? -/
def beginsWith : List Char → List Char → Bool
  | _, [] => true
  | [], _ :: _ => false
  | c :: cs, p :: ps => c == p && beginsWith cs ps

/-- Does the second list occur as a contiguous sublist of the first? -/
def containsList : List Char → List Char → Bool
  | [], p => p.isEmpty
  | c :: cs, p => beginsWith (c :: cs) p || containsList cs p

/-- Python `phrase in text` (substring containment). -/
def containsStr (text phrase : String) : Bool := containsList text.data phrase.data

/-- Python `text.endswith suffix`. -/
def endsWithStr (s suf : String) : Bool := beginsWith s.data.reverse suf.data.reverse

/-- Clamp a score into `[0, 1]`, as `max(0, min(1, score))` does. -/
def clamp01 (q : ℚ) : ℚ := max 0 (min 1 q)

theorem clamp01_nonneg (q : ℚ) : 0 ≤ clamp01 q := le_max_left 0 _

theorem clamp01_le_one (q : ℚ) : clamp01 q ≤ 1 :=
  max_le (by norm_num) (min_le_left 1 q)

namespace CF

/-! ## `content_filter.py`

The quality-scoring constants and phrase lexicons, copied from the module
header of `scripts/content_filter.py`. -/

/-- Ad phrases for detection (`AD_PHRASES`). -/
def adPhrases : List String :=
  ["sponsored content", "advertisement", "paid content", "promoted by", "buy now",
   "limited time offer", "discount code", "subscribe today", "shop now", "free trial",
   "advertisement feature", "click here", "exclusive offer", "promo code", "sign up now"]

/-- Clickbait detection phrases (`CLICKBAIT_PHRASES`). -/
def clickbaitPhrases : List String :=
  ["you won\x27t believe", "shocking truth", "this one trick", "will blow your mind",
   "secrets revealed", "find out how", "click to see", "don\x27t miss out", "game changer",
   "mind blowing", "jaw-dropping", "you\x27ll never guess", "this will change everything",
   "unbelievable", "amazing", "incredible", "revolutionary", "number 7 will surprise you",
   "what happens next", "doctors hate", "crazy trick", "simple trick", "find out why"]

/-- Fluff content phrases (`FLUFF_PHRASES`). -/
def fluffPhrases : List String :=
  ["in today\x27s world", "at the end of the day", "experts say", "studies show",
   "it goes without saying", "needless to say", "in conclusion", "many people believe",
   "in today\x27s fast-paced world", "in this day and age", "as we all know",
   "when all is said and done", "the fact of the matter is", "according to experts",
   "according to research", "sources say", "many people are saying"]

/-- Reputable sources recognised in `calculate_quality_score`. -/
def reputableSources : List String :=
  ["cnn", "bbc", "reuters", "ap", "associated press",
   "nytimes", "new york times", "washingtonpost", "washington post",
   "economist", "nature", "science", "national geographic",
   "guardian", "npr", "pbs", "aljazeera", "theverge"]

/-- Suspicious top-level domains (`suspicious_tlds`). -/
def suspiciousTlds : List String := [".xyz", ".info", ".biz", ".click", ".club", ".top"]

/-- A content document as the filter reads it from the store.  `domain` is
`urlparse(url).netloc` as computed by the URL library, and `avgWps` is
`len(word_tokenize(content)) / len(sent_tokenize(content))` as computed by
NLTK; both are library outputs supplied as inputs to the embedding. -/
structure Item where
  url : String
  title : String
  content_summary : String
  source : String
  domain : String
  upvotes : ℕ
  downvotes : ℕ
  avgWps : ℚ
deriving DecidableEq

/-- Content-length contribution: `-0.2` below 100 chars, `+0.15` above 1000,
`+0.1` above 500. -/
def lengthDelta (content : String) : ℚ :=
  if content.length < 100 then -(1/5)
  else if 1000 < content.length then 3/20
  else if 500 < content.length then 1/10
  else 0

/-- Title-length contribution: `-0.1` below 5 chars, `+0.05` above 80. -/
def titleDelta (title : String) : ℚ :=
  if title.length < 5 then -(1/10)
  else if 80 < title.length then 1/20
  else 0

/-- Clickbait check on the title: one `-0.15` penalty if any clickbait
phrase occurs (the source loop breaks after the first hit). -/
def clickbaitDelta (title : String) : ℚ :=
  if clickbaitPhrases.any (fun p => containsStr (lower title) p) then -(3/20) else 0

/-- Number of distinct ad phrases occurring in the content
(`sum(phrase in lower_content for phrase in AD_PHRASES)`). -/
def adCount (content : String) : ℕ :=
  (adPhrases.filter (fun p => containsStr (lower content) p)).length

/-- Ad-phrase penalty: `-0.1 * min(1, ad_count / 2)` when any is present. -/
def adDelta (content : String) : ℚ :=
  if adCount content ≠ 0 then -(1/10) * min 1 ((adCount content : ℚ) / 2) else 0

/-- Number of distinct fluff phrases occurring in the content. -/
def fluffCount (content : String) : ℕ :=
  (fluffPhrases.filter (fun p => containsStr (lower content) p)).length

/-- Fluff-phrase penalty: `-0.05 * min(1, fluff_count / 3)` when any is present. -/
def fluffDelta (content : String) : ℚ :=
  if fluffCount content ≠ 0 then -(1/20) * min 1 ((fluffCount content : ℚ) / 3) else 0

/-- Sentence-structure contribution, driven by the NLTK-computed average
words per sentence: `+0.1` above 25, `-0.1` below 8, only when content is
nonempty. -/
def sentenceDelta (content : String) (avg : ℚ) : ℚ :=
  if content ≠ "" then
    (if 25 < avg then 1/10 else if avg < 8 then -(1/10) else 0)
  else 0

/-- Reputable-source bonus: `+0.1` if any reputable name occurs in the
lower-cased source (loop breaks after the first hit). -/
def sourceDelta (source : String) : ℚ :=
  if source ≠ "" ∧ reputableSources.any (fun r => containsStr (lower source) r) then 1/10
  else 0

/-- URL-quality contribution.  The suspicious-TLD penalty is `-0.1`; the
very-short-domain penalty is `-0.05`.  When `source` is empty the local
`reputable_sources` list of the source-reputation block was never bound, so
the short-domain check raises `NameError`, which the surrounding
`except Exception: pass` swallows after the TLD penalty has already been
applied — hence the `source ≠ ""` guard on the second summand only. -/
def urlDelta (url domain source : String) : ℚ :=
  if url ≠ "" then
    (if suspiciousTlds.any (fun t => endsWithStr domain t) then -(1/10) else 0)
    + (if source ≠ "" ∧ domain.length < 10 ∧ containsStr domain "."
         ∧ ¬(reputableSources.any (fun r => containsStr (lower domain) r)) then -(1/20)
       else 0)
  else 0

/-- Vote-feedback contribution: `(upvotes - downvotes)/(upvotes + downvotes + 1) * 0.1`,
applied only when `upvotes + downvotes > 10`. -/
def votesDelta (u d : ℕ) : ℚ :=
  if 10 < u + d then (((u : ℚ) - (d : ℚ)) / ((u : ℚ) + (d : ℚ) + 1)) * (1/10) else 0

/-- The quality score before the final clamp: `0.5` plus every contribution
of `calculate_quality_score`. -/
def qualityRaw (it : Item) : ℚ :=
  1/2 + lengthDelta it.content_summary + titleDelta it.title + clickbaitDelta it.title
    + adDelta it.content_summary + fluffDelta it.content_summary
    + sentenceDelta it.content_summary it.avgWps + sourceDelta it.source
    + urlDelta it.url it.domain it.source + votesDelta it.upvotes it.downvotes

/-- `calculate_quality_score`: the raw score clipped to `[0, 1]`. -/
def calculate_quality_score (it : Item) : ℚ := clamp01 (qualityRaw it)

/-- Oracle for the two similarity libraries used by `is_duplicate`:
`titleRatio a b` is `difflib.SequenceMatcher(None, a, b).ratio()` and
`maxSim text corpus` is the maximum TF-IDF cosine similarity of `text`
against the corpus (computed over the whole corpus at once, so it is a
function of the corpus, not of single pairs). -/
structure DupOracle where
  titleRatio : String → String → ℚ
  maxSim : String → List String → ℚ

/-- The reason recorded when an item is found to be a duplicate.  The
formatted `filter_reason` string drops the numeric similarity value. -/
inductive DupReason
  | urlMatch
  | titleExact
  | titleSimilar
  | contentSimilar
deriving DecidableEq

/-- The `filter_reason` text stored for a duplicate verdict (the numeric
score interpolated by the source is omitted). -/
def filterReasonText : DupReason → String
  | .urlMatch => "Duplicate: Exact URL match"
  | .titleExact => "Duplicate: Exact title match"
  | .titleSimilar => "Duplicate: Similar title"
  | .contentSimilar => "Duplicate: Content similarity"

/-- Whether the recorded `filter_reason` mentions similarity. -/
def mentionsSimilarity (r : DupReason) : Bool :=
  containsStr (lower (filterReasonText r)) "similar"

/-- Step 1 of `is_duplicate`: exact URL match against any existing item,
checked only when the stripped URL is nonempty. -/
def urlDup (new : Item) (existing : List Item) : Bool :=
  !(pyStrip new.url == "") && existing.any (fun e => pyStrip e.url == pyStrip new.url)

/-- Step 2 of `is_duplicate`: case-insensitive exact title match, or a
`difflib` ratio above `0.9`, checked per existing item in order and only
when the stripped title is longer than `MIN_TITLE_LENGTH = 5`. -/
def titleDup (o : DupOracle) (new : Item) (existing : List Item) : Option DupReason :=
  if pyStrip new.title ≠ "" ∧ 5 < (pyStrip new.title).length then
    existing.findSome? (fun e =>
      if pyStrip e.title ≠ "" ∧ lower (pyStrip new.title) = lower (pyStrip e.title) then
        some DupReason.titleExact
      else if pyStrip e.title ≠ ""
          ∧ (9 : ℚ)/10 < o.titleRatio (lower (pyStrip new.title)) (lower (pyStrip e.title)) then
        some DupReason.titleSimilar
      else none)
  else none

/-- Step 3 of `is_duplicate`: TF-IDF cosine similarity of the content
against the nonempty existing contents, above `MAX_DUPLICATE_SCORE = 0.85`,
checked only when the stripped content exceeds `MIN_CONTENT_LENGTH = 100`. -/
def contentDup (o : DupOracle) (new : Item) (existing : List Item) : Option DupReason :=
  if pyStrip new.content_summary ≠ "" ∧ 100 < (pyStrip new.content_summary).length then
    if ((existing.map fun e => pyStrip e.content_summary).filter fun s => !(s == "")) ≠ []
        ∧ (17 : ℚ)/20 < o.maxSim (pyStrip new.content_summary)
            ((existing.map fun e => pyStrip e.content_summary).filter fun s => !(s == "")) then
      some DupReason.contentSimilar
    else none
  else none

/-- `is_duplicate`: short-circuit through URL, title and content checks. -/
def is_duplicate (o : DupOracle) (new : Item) (existing : List Item) : Option DupReason :=
  if urlDup new existing then some .urlMatch
  else
    match titleDup o new existing with
    | some r => some r
    | none => contentDup o new existing

/-- Outcome recorded for one item by `process_content`. -/
inductive Verdict
  | tooShort
  | duplicate (r : DupReason)
  | lowQuality
  | kept
deriving DecidableEq

/-- State carried through the `process_content` loop: the items available
for duplicate comparison (initially the filtered store window, extended
with every kept item) and the verdicts recorded so far. -/
structure RunState where
  existing : List Item
  outs : List (Item × Verdict)
deriving DecidableEq

/-- One iteration of the `process_content` loop.  `clean` stands for
`clean_content` (its result on each item is whatever the cleaning pass
produces).  The cleaned text is length-checked first; duplicate detection
and quality scoring both read the original document, and a kept item is
stored — and becomes visible to later comparisons — with its cleaned
content. -/
def processItem (o : DupOracle) (clean : String → String) (st : RunState) (it : Item) :
    RunState :=
  if (clean it.content_summary).length < 100 then
    ⟨st.existing, st.outs ++ [(it, Verdict.tooShort)]⟩
  else
    match is_duplicate o it st.existing with
    | some r => ⟨st.existing, st.outs ++ [(it, Verdict.duplicate r)]⟩
    | none =>
      if calculate_quality_score it < 1/2 then
        ⟨st.existing, st.outs ++ [(it, Verdict.lowQuality)]⟩
      else
        ⟨st.existing ++ [{ it with content_summary := clean it.content_summary }],
         st.outs ++ [(it, Verdict.kept)]⟩

/-- `process_content`: fold the loop body over the unfiltered batch,
starting from the window of already-filtered items. -/
def process_content (o : DupOracle) (clean : String → String)
    (existing : List Item) (batch : List Item) : RunState :=
  batch.foldl (processItem o clean) ⟨existing, []⟩

/-- Is the verdict `kept`? -/
def Verdict.isKept : Verdict → Bool
  | .kept => true
  | _ => false

end CF

namespace RE

/-! ## `recommendation_engine.py`

The heuristic engine.  User preferences arrive as a parsed JSON value and
are accessed dynamically, so they are modelled by a Python-like value type
and the dynamically-typed accesses return `Except`: a `TypeError` or
`AttributeError` raised inside `recommend` is an `Except.error` that the
CLI entry point must contain. -/

/-- A parsed JSON / Python value, as `json.loads` can produce. -/
inductive PyVal
  | num (q : ℚ)
  | str (s : String)
  | arr (l : List PyVal)
  | dict (d : List (String × PyVal))
  | boolean (b : Bool)
  | null

/-- The dynamic errors the engine can raise. -/
inductive Err
  | typeError
  | attrError
deriving DecidableEq

/-- Use a value as a number, as Python arithmetic does: numbers are
themselves, booleans coerce to `0`/`1`, everything else raises
`TypeError`. -/
def pyToNum : PyVal → Except Err ℚ
  | .num q => .ok q
  | .boolean b => .ok (if b then 1 else 0)
  | _ => .error .typeError

/-- `d.get(k, dflt)` on an association list standing for a Python dict. -/
def dictGet (d : List (String × PyVal)) (k : String) (dflt : PyVal) : PyVal :=
  (List.lookup k d).getD dflt

/-- Assignment `d[k] = v` on an association-list dict. -/
def dictSet (d : List (String × PyVal)) (k : String) (v : PyVal) : List (String × PyVal) :=
  if d.any (fun p => p.1 == k) then
    d.map (fun p => if p.1 == k then (p.1, v) else p)
  else d ++ [(k, v)]

/-- The merge loop of `recommend`:
`weights[category] = max(weights.get(category, 0), weight)` for every
interaction-derived interest.  `weights` is a dynamic value: if it is not a
dict the subscript raises `AttributeError`/`TypeError`, and a non-numeric
stored weight makes `max` raise `TypeError`. -/
def mergeWeights : PyVal → List (String × ℚ) → Except Err PyVal
  | w, [] => .ok w
  | w, ci :: rest =>
    match w with
    | .dict d =>
      match pyToNum (dictGet d ci.1 (.num 0)) with
      | .error e => .error e
      | .ok cur => mergeWeights (.dict (dictSet d ci.1 (.num (max cur ci.2)))) rest
    | _ => .error .attrError

/-- Stopwords removed by `extract_keywords`. -/
def stopwordList : List String :=
  ["the", "a", "an", "and", "or", "but", "is", "are", "was", "were",
   "for", "in", "on", "at", "to", "by", "this", "that", "of", "from",
   "with", "as", "its", "it", "have", "has", "had", "be", "been", "being"]

/-- Is the character an ASCII letter? -/
def isAsciiLetter (c : Char) : Bool := ('a' ≤ c && c ≤ 'z') || ('A' ≤ c && c ≤ 'Z')

/-- Maximal alphabetic runs of a character list (the matches of
`[a-zA-Z]{3,}` before the length filter, on text without digit-adjacent
letters). -/
def alphaRuns : List Char → List Char → List (List Char)
  | [], cur => if cur.isEmpty then [] else [cur.reverse]
  | c :: rest, cur =>
    if isAsciiLetter c then alphaRuns rest (c :: cur)
    else if cur.isEmpty then alphaRuns rest []
    else cur.reverse :: alphaRuns rest []

/-- `extract_keywords`: lower-case, take alphabetic words of length ≥ 3,
drop stopwords. -/
def extract_keywords (text : String) : List String :=
  ((alphaRuns (lower text).data []).map (fun l => (⟨l⟩ : String))).filter
    (fun w => 3 ≤ w.length && !(stopwordList.contains w))

/-- Rating metrics of one content item, as fetched by
`get_content_ratings` (all integers in the store; rationals here). -/
structure RatingData where
  upvotes : ℚ
  downvotes : ℚ
  comment_count : ℚ
  confidence_score : ℚ
  engagement_score : ℚ
deriving DecidableEq

/-- The default rating record used when a content id has no entry. -/
def defaultRating : RatingData := ⟨0, 0, 0, 0, 0⟩

/-- The `vote_score` local of `calculate_rating_score`: smoothed positive
ratio scaled by a vote-count confidence, defaulting to `0.5` with no
votes. -/
def voteScorePart (r : RatingData) : ℚ :=
  if 0 < r.upvotes + r.downvotes then
    ((r.upvotes + 1) / (r.upvotes + r.downvotes + 2))
        * min 1 ((r.upvotes + r.downvotes) / 10)
      + (1/2) * (1 - min 1 ((r.upvotes + r.downvotes) / 10))
  else 1/2

/-- The `normalized_engagement` local: a precomputed engagement score
capped at 500, otherwise votes plus triple-weighted comments capped at
100. -/
def engagementPart (r : RatingData) : ℚ :=
  if 0 < r.engagement_score then min 1 (r.engagement_score / 500)
  else min 1 ((r.upvotes + r.downvotes + r.comment_count * 3) / 100)

/-- The `discussion_score` local: comment count relative to 30. -/
def discussionPart (r : RatingData) : ℚ := min 1 (r.comment_count / 30)

/-- The `confidence_component` local: a positive precomputed confidence
score normalized to `[0, 1]`. -/
def confidencePart (r : RatingData) : ℚ :=
  if 0 < r.confidence_score then r.confidence_score / 100 else 0

/-- `calculate_rating_score`: 60% smoothed vote score, 20% normalized
engagement, 20% discussion level, with a capped 10% boost for
high-confidence items. -/
def calculate_rating_score (r : RatingData) : ℚ :=
  if 7/10 < confidencePart r then
    min 1 (((6/10) * voteScorePart r + (2/10) * engagementPart r
      + (2/10) * discussionPart r) * (11/10))
  else (6/10) * voteScorePart r + (2/10) * engagementPart r + (2/10) * discussionPart r

/-- A content item as the heuristic engine scores it.  `freshness` is
`math.exp(-0.03 * age_hours)` as computed by the float library; it lies in
`[0, 1]` whenever the content age is non-negative. -/
structure Content where
  id : String
  category : String
  title : String
  content_summary : String
  freshness : ℚ
deriving DecidableEq

/-- The keyword-matching component: sum of the (0–100) interest weights of
the content keywords, scaled by `/100`, normalised by keyword count and
scaled up by 3, capped at 1.  Zero when the user has no interest keywords
or the content has none. -/
def keywordScore (interest : List (String × ℚ)) (c : Content) : ℚ :=
  if interest.isEmpty then 0
  else if !(extract_keywords (c.content_summary ++ " " ++ c.title)).isEmpty then
    min 1
      (((extract_keywords (c.content_summary ++ " " ++ c.title)).map
          fun k => ((List.lookup k interest).getD 0) / 100).sum
        / ((extract_keywords (c.content_summary ++ " " ++ c.title)).length : ℚ) * 3)
  else 0

/-- `weights.get(category, 0) / 100.0` with dynamic `weights`. -/
def categoryScoreE (weights : PyVal) (cat : String) : Except Err ℚ :=
  match weights with
  | .dict d => do
    let q ← pyToNum (dictGet d cat (.num 0))
    pure (q / 100)
  | _ => .error .attrError

/-- The final per-item score of `recommend` (lines 542–550):
`(1 - rating_weight) * (0.5*category + 0.3*freshness + 0.2*keywords)
 + rating_weight * rating`. -/
def finalScore (ratingWeight categoryScore freshnessScore kwScore ratingScore : ℚ) : ℚ :=
  (1 - ratingWeight) *
      ((1/2) * categoryScore + (3/10) * freshnessScore + (1/5) * kwScore)
    + ratingWeight * ratingScore

/-- Score one content item inside `recommend`: compute the four components
and combine them. -/
def scoreItemE (weights : PyVal) (ratingWeight : ℚ) (interestKw : List (String × ℚ))
    (ratings : List (String × RatingData)) (c : Content) : Except Err ℚ := do
  let cs ← categoryScoreE weights c.category
  let rs := calculate_rating_score ((List.lookup c.id ratings).getD defaultRating)
  pure (finalScore ratingWeight cs c.freshness (keywordScore interestKw c) rs)

/-- The five fallback items of `mock_content` (fields the engine reads).
Their timestamps are 2/5/8/12/18 hours before the current run, so the
corresponding freshness values are library outputs; representative
in-range constants stand for them here. -/
def mockContent : List Content :=
  [{ id := "mock1", category := "Tech", title := "Tech Innovations in 2025",
     content_summary := "New advancements in artificial intelligence and machine learning are transforming industries.",
     freshness := 47/50 },
   { id := "mock2", category := "Business", title := "Global Market Report",
     content_summary := "Markets showed strong resilience despite ongoing economic challenges.",
     freshness := 43/50 },
   { id := "mock3", category := "Sports", title := "Championship Finals Recap",
     content_summary := "The championship game was a thriller with the underdog team coming back.",
     freshness := 39/50 },
   { id := "mock4", category := "Health", title := "New Breakthrough in Medical Research",
     content_summary := "Researchers have identified a promising new treatment for autoimmune diseases.",
     freshness := 7/10 },
   { id := "mock5", category := "Entertainment", title := "Film Festival Winners Announced",
     content_summary := "The annual film festival concluded with surprising winners in major categories.",
     freshness := 29/50 }]

/-- Stable descending sort by a rational key (Python `sorted` with
`reverse=True`), as straightforward insertion sort. -/
def insertDesc {α : Type} (key : α → ℚ) (x : α) : List α → List α
  | [] => [x]
  | y :: ys => if key y < key x then x :: y :: ys else y :: insertDesc key x ys

/-- Sort a list in descending key order. -/
def sortDescBy {α : Type} (key : α → ℚ) : List α → List α
  | [] => []
  | x :: xs => insertDesc key x (sortDescBy key xs)

/-- `recommend(user_id, preferences, limit)`.  Oracles/inputs: `interests`
and `interestKw` are the category and keyword maps of
`get_user_interests` (which catches its own exceptions), `ratings` the
output of `get_content_ratings`, and `fetch` the outcome of the store
query, which falls back to `mock_content` on failure or emptiness.  The
result is the scored, descending-sorted, truncated recommendation list. -/
def recommendE (prefs : PyVal) (interests : List (String × ℚ))
    (interestKw : List (String × ℚ)) (ratings : List (String × RatingData))
    (fetch : Except Err (List Content)) (limit : ℕ) : Except Err (List Content) :=
  let weights0 : PyVal :=
    match prefs with
    | .dict d => dictGet d "weights" (.dict [("General", .num 50)])
    | _ => .dict [("General", .num 50)]
  let ratingWeightE : Except Err ℚ :=
    match prefs with
    | .dict d => do
      let q ← pyToNum (dictGet d "rating_weight" (.num 50))
      pure (q / 100)
    | _ => .ok (1/2)
  match ratingWeightE with
  | .error e => .error e
  | .ok rw =>
    match mergeWeights weights0 interests with
    | .error e => .error e
    | .ok weights =>
      let contents :=
        match fetch with
        | .ok l => if l.isEmpty then mockContent else l
        | .error _ => mockContent
      match contents.mapM (fun c => do
          let s ← scoreItemE weights rw interestKw ratings c
          pure (c, s)) with
      | .error e => .error e
      | .ok scored => .ok (((sortDescBy (fun p => p.2) scored).take limit).map (fun p => p.1))

/-- The preference normalisation of the CLI `__main__`: a missing or
invalid `--preferences` JSON (parse failure or a non-dict value) is
replaced by the default preferences, and a missing `rating_weight` key is
filled with 50. -/
def cliNormalizePrefs (parsed : Option PyVal) : PyVal :=
  let base : List (String × PyVal) :=
    match parsed with
    | some (.dict d) => d
    | _ => [("weights", .dict [("General", .num 50), ("Tech", .num 80), ("Sports", .num 30)])]
  if (List.lookup "rating_weight" base).isNone then
    .dict (base ++ [("rating_weight", .num 50)])
  else .dict base

/-- The CLI entry point around `recommend`: any exception from the call is
caught and replaced by the empty list, and an empty recommendation list is
backfilled from `mock_content` (`min(limit, len(mock_content))` items). -/
def cliRecommend (parsed : Option PyVal) (interests : List (String × ℚ))
    (interestKw : List (String × ℚ)) (ratings : List (String × RatingData))
    (fetch : Except Err (List Content)) (limit : ℕ) : Except Err (List Content) :=
  let prefs := cliNormalizePrefs parsed
  let recs :=
    match recommendE prefs interests interestKw ratings fetch limit with
    | .ok r => r
    | .error _ => []
  .ok (if recs.isEmpty then mockContent.take limit else recs)

end RE

namespace ML

/-! ## `ml_recommendation_engine.py`

The two-stage engine.  The trained LightGBM model is an external artifact;
its per-candidate prediction is a `predict` oracle.  Only the paths the
claims exercise are embedded: interaction weighting, the candidate
generator, and the diversity-constrained selection applied to the ranked
list. -/

/-- A stored content item as the candidate generator reads it.
`age_hours` is `calculate_content_age(timestamp)` — a wall-clock
computation supplied as an input. -/
structure CItem where
  id : String
  category : String
  source : String
  age_hours : ℚ
  upvotes : ℤ
deriving DecidableEq

/-- One user interaction. -/
structure Interaction where
  content_id : String
  interaction_type : String
  rating : Option ℤ
deriving DecidableEq

/-- The evidence weight of one interaction, from the preference-profiling
loops of `recommend` (lines 1024–1031) and `prepare_training_data`
(lines 357–364): `1.0` by default, `1.5` for a click, else `3.0` for an
explicit `+1` rating and `-1.0` for an explicit `-1` rating. -/
def interactionWeight (ty : String) (rating : Option ℤ) : ℚ :=
  if ty == "click" then 3/2
  else if rating == some 1 then 3
  else if rating == some (-1) then -1
  else 1

/-- `Counter[k] += w` on an insertion-ordered association list. -/
def bumpCounter (c : List (String × ℚ)) (k : String) (w : ℚ) : List (String × ℚ) :=
  if c.any (fun p => p.1 == k) then
    c.map (fun p => if p.1 == k then (p.1, p.2 + w) else p)
  else c ++ [(k, w)]

/-- The preference-profiling pass of `recommend`: accumulate the
interaction weight into the per-category and per-source counters, skipping
interactions whose content is not in the window. -/
def buildPrefCounters (interactions : List Interaction) (allContent : List CItem) :
    List (String × ℚ) × List (String × ℚ) :=
  interactions.foldl
    (fun acc i =>
      match allContent.find? (fun c => c.id == i.content_id) with
      | none => acc
      | some c =>
        let w := interactionWeight i.interaction_type i.rating
        (bumpCounter acc.1 c.category w, bumpCounter acc.2 c.source w))
    ([], [])

/-- Stable descending sort of counter entries by weight, as
`Counter.most_common` produces. -/
def insertDescQ (x : String × ℚ) : List (String × ℚ) → List (String × ℚ)
  | [] => [x]
  | y :: ys => if y.2 < x.2 then x :: y :: ys else y :: insertDescQ x ys

/-- Sort counter entries by descending weight (ties keep insertion order). -/
def sortCounter : List (String × ℚ) → List (String × ℚ)
  | [] => []
  | x :: xs => insertDescQ x (sortCounter xs)

/-- `[k for k, w in counter.most_common(3) if w > 0]`. -/
def topThree (counter : List (String × ℚ)) : List String :=
  (((sortCounter counter).take 3).filter (fun p => decide (0 < p.2))).map (fun p => p.1)

/-- Extend the top categories with every explicit preference weight above
55 that is not already present (lines 1048–1050). -/
def addExplicit (top : List String) (prefWeights : List (String × ℚ)) : List String :=
  prefWeights.foldl
    (fun acc p => if 55 < p.2 ∧ ¬acc.contains p.1 then acc ++ [p.1] else acc)
    top

/-- Stage 1 of `recommend`: candidate generation (lines 1052–1084).  With
any affinity or explicit preference signal, keep non-interacted content
matching the top categories/sources, plus very fresh (< 12h) content with
more than 10 upvotes; with no signal at all, keep every non-interacted
item. -/
def generateCandidates (interactions : List Interaction)
    (prefWeights : List (String × ℚ)) (allContent : List CItem) : List CItem :=
  let interacted := interactions.map (fun i => i.content_id)
  let counters := buildPrefCounters interactions allContent
  let topCats := addExplicit (topThree counters.1) prefWeights
  let topSrcs := topThree counters.2
  if topCats ≠ [] ∨ topSrcs ≠ [] then
    allContent.foldl
      (fun acc c =>
        if interacted.contains c.id then acc
        else if topCats.contains c.category || topSrcs.contains c.source then acc ++ [c]
        else if c.age_hours < 12 ∧ 10 < c.upvotes then acc ++ [c]
        else acc)
      []
  else
    allContent.filter (fun c => !(interacted.contains c.id))

/-- The one-pass diversity walk (lines 1310–1324): accept an item when its
category has been accepted fewer than 3 times or fewer than `0.8 * limit`
items have been accepted, and stop as soon as `limit` items are
accepted. -/
def walkGo (limit : ℕ) : List (CItem × ℚ) → List (CItem × ℚ) → List (CItem × ℚ)
  | [], acc => acc
  | x :: rest, acc =>
    if acc.countP (fun y => y.1.category == x.1.category) < 3
        ∨ (acc.length : ℚ) < (limit : ℚ) * (4/5) then
      if limit ≤ (acc ++ [x]).length then acc ++ [x] else walkGo limit rest (acc ++ [x])
    else walkGo limit rest acc

/-- The diversity walk started on the score-sorted candidate list. -/
def walk (limit : ℕ) (sorted : List (CItem × ℚ)) : List (CItem × ℚ) :=
  walkGo limit sorted []

/-- The full diversity-constrained selection (lines 1307–1338): applied
only when there are more candidates than requested; after the walk,
backfill with the highest-scoring not-yet-accepted items; finally truncate
to `limit`. -/
def diversitySelect (limit : ℕ) (sorted : List (CItem × ℚ)) : List (CItem × ℚ) :=
  let results :=
    if limit < sorted.length then
      let f := walk limit sorted
      if f.length < limit then
        f ++ ((sorted.filter (fun x => decide (x ∉ f))).take (limit - f.length))
      else f
    else sorted
  results.take limit

/-- Mock content of the ML engine (fields the modelled paths read). -/
def mockContentML : List CItem :=
  [{ id := "mock1", category := "Tech", source := "TechCrunch", age_hours := 2, upvotes := 45 },
   { id := "mock2", category := "Business", source := "Financial Times", age_hours := 5, upvotes := 28 },
   { id := "mock3", category := "Sports", source := "Sports Network", age_hours := 8, upvotes := 67 },
   { id := "mock4", category := "Health", source := "Health Journal", age_hours := 12, upvotes := 52 },
   { id := "mock5", category := "Entertainment", source := "Entertainment Weekly", age_hours := 18, upvotes := 37 }]

/-- Stage 2 wrapped around stage 1: score every candidate with the model
oracle, sort descending, apply the diversity selection, and return the
content of the top rows.  An empty candidate set falls back to
`min(limit, len(mock_content))` mock items. -/
def recommendML (predict : CItem → ℚ) (interactions : List Interaction)
    (prefWeights : List (String × ℚ)) (allContent : List CItem) (limit : ℕ) :
    List CItem :=
  let candidates := generateCandidates interactions prefWeights allContent
  if candidates.isEmpty then mockContentML.take limit
  else
    (diversitySelect limit
        (RE.sortDescBy (fun p => p.2) (candidates.map (fun c => (c, predict c))))).map
      (fun p => p.1)

end ML

/-! ## Shared lemmas -/

theorem getD_lookup_of_forall {β : Type} {P : β → Prop} (d : List (String × β))
    (k : String) (dflt : β) (h : ∀ p ∈ d, P p.2) (hd : P dflt) :
    P ((List.lookup k d).getD dflt) := by
  induction d with
  | nil => simpa [List.lookup] using hd
  | cons a t ih =>
    obtain ⟨k', v⟩ := a
    by_cases hk : k = k'
    · simpa [List.lookup, hk] using h (k', v) (by simp)
    · have : (k == k') = false := by simpa using hk
      simpa [List.lookup, this] using ih (fun p hp => h p (by simp [hp]))

/-- The length of a recommendation list truncated by `[:limit]`. -/
theorem length_take_le' {α : Type} (l : List α) (n : ℕ) : (l.take n).length ≤ n := by
  rw [List.length_take]; exact min_le_left n l.length

/-- Splitting a list by a predicate preserves total length. -/
theorem length_filter_split {α : Type} (l : List α) (p : α → Bool) :
    (l.filter p).length + (l.filter (fun a => !(p a))).length = l.length := by
  induction l with
  | nil => simp
  | cons a t ih => cases h : p a <;> simp [List.filter, h, ← ih] <;> omega

/-- The length bound of `recommendE`: every successful run returns at most
`limit` items. -/
theorem recommendE_length_le (prefs : RE.PyVal) (interests interestKw : List (String × ℚ))
    (ratings : List (String × RE.RatingData)) (fetch : Except RE.Err (List RE.Content))
    (limit : ℕ) (r : List RE.Content)
    (h : RE.recommendE prefs interests interestKw ratings fetch limit = .ok r) :
    r.length ≤ limit := by
  simp only [RE.recommendE] at h
  split at h
  · exact absurd h (by simp)
  · split at h
    · exact absurd h (by simp)
    · split at h
      · exact absurd h (by simp)
      · rw [Except.ok.injEq] at h
        subst h
        rw [List.length_map]
        exact length_take_le' _ _

/-- The diversity selection never returns more than `limit` rows. -/
theorem diversitySelect_length_le (limit : ℕ) (sorted : List (ML.CItem × ℚ)) :
    (ML.diversitySelect limit sorted).length ≤ limit := by
  simp only [ML.diversitySelect]
  exact length_take_le' _ _

/-- Cast form of the escape-valve comparison `len(filtered) < limit * 0.8`. -/
theorem valve_nat {n k : ℕ} (h : (n : ℚ) < (k : ℚ) * (4/5)) : 5 * n < 4 * k := by
  have h5 : ((5 * n : ℕ) : ℚ) < ((4 * k : ℕ) : ℚ) := by push_cast; nlinarith
  exact_mod_cast h5

/-- Per-category bound of the one-pass diversity walk: a category's count
never exceeds `max 3 ((4*limit - 1)/5 + 1)` — up to 3 via the cap, or one
more than the largest count admissible through the 80% escape valve. -/
theorem walkGo_countP_le (limit : ℕ) (cat : String) (l : List (ML.CItem × ℚ)) :
    ∀ acc : List (ML.CItem × ℚ),
      acc.countP (fun y => y.1.category == cat) ≤ max 3 ((4 * limit - 1) / 5 + 1) →
      (ML.walkGo limit l acc).countP (fun y => y.1.category == cat)
        ≤ max 3 ((4 * limit - 1) / 5 + 1) := by
  induction l with
  | nil => intro acc h; simpa [ML.walkGo] using h
  | cons x rest ih =>
    intro acc h
    rw [ML.walkGo]
    split
    · rename_i hcond
      have hcount2 : (acc ++ [x]).countP (fun y => y.1.category == cat)
          ≤ max 3 ((4 * limit - 1) / 5 + 1) := by
        by_cases hx : x.1.category = cat
        · have hxb : (x.1.category == cat) = true := by simp [hx]
          have hstep : (acc ++ [x]).countP (fun y => y.1.category == cat)
              = acc.countP (fun y => y.1.category == cat) + 1 := by
            simp [List.countP_append, List.countP_cons, hxb]
          rcases hcond with hcap | hvalve
          · have hpe : acc.countP (fun y => y.1.category == x.1.category)
                = acc.countP (fun y => y.1.category == cat) := by
              apply List.countP_congr
              intro y _
              rw [hx]
            rw [hstep]
            have : acc.countP (fun y => y.1.category == cat) + 1 ≤ 3 := by
              rw [← hpe]; exact hcap
            exact le_trans this (le_max_left _ _)
          · have h5 : 5 * acc.length < 4 * limit := valve_nat hvalve
            have hc : acc.countP (fun y => y.1.category == cat) ≤ acc.length :=
              List.countP_le_length _
            have hdiv : acc.countP (fun y => y.1.category == cat) ≤ (4 * limit - 1) / 5 := by
              apply (Nat.le_div_iff_mul_le (by norm_num)).2
              omega
            rw [hstep]
            exact le_trans (by omega) (le_max_right 3 ((4 * limit - 1) / 5 + 1))
        · have hxb : (x.1.category == cat) = false := by simp [hx]
          have : (acc ++ [x]).countP (fun y => y.1.category == cat)
              = acc.countP (fun y => y.1.category == cat) := by
            simp [List.countP_append, List.countP_cons, hxb]
          rw [this]; exact h
      split
      · exact hcount2
      · exact ih _ hcount2
    · exact ih acc h

/-- Insertion into the descending sort is a permutation. -/
theorem insertDesc_perm {α : Type} (key : α → ℚ) (x : α) (l : List α) :
    (RE.insertDesc key x l).Perm (x :: l) := by
  induction l with
  | nil => simp [RE.insertDesc]
  | cons y ys ih =>
    rw [RE.insertDesc]
    split
    · exact List.Perm.refl _
    · exact (ih.cons y).trans (List.Perm.swap x y ys)

/-- The stable descending sort is a permutation of its input. -/
theorem sortDescBy_perm {α : Type} (key : α → ℚ) (l : List α) :
    (RE.sortDescBy key l).Perm l := by
  induction l with
  | nil => simp [RE.sortDescBy]
  | cons x xs ih => exact (insertDesc_perm key x _).trans (ih.cons x)

/-- With a duplicate-free candidate list, the diversity selection always
delivers exactly `min limit (number of candidates)` rows: either the walk
reached the limit, or the backfill pass tops the result up. -/
theorem diversitySelect_length (limit : ℕ) (sorted : List (ML.CItem × ℚ))
    (hnd : sorted.Nodup) :
    (ML.diversitySelect limit sorted).length = min limit sorted.length := by
  simp only [ML.diversitySelect]
  by_cases hgt : limit < sorted.length
  · rw [if_pos hgt]
    by_cases hless : (ML.walk limit sorted).length < limit
    · rw [if_pos hless]
      have hsplit := length_filter_split sorted (fun x => decide (x ∈ ML.walk limit sorted))
      have hin : (sorted.filter (fun x => decide (x ∈ ML.walk limit sorted))).length
          ≤ (ML.walk limit sorted).length := by
        apply List.Subperm.length_le
        apply List.subperm_of_subset
        · exact List.Nodup.sublist (List.filter_sublist sorted) hnd
        · intro x hx
          exact of_decide_eq_true (List.mem_filter.1 hx).2
      have hnotlen : limit - (ML.walk limit sorted).length
          ≤ (sorted.filter (fun x => decide (x ∉ ML.walk limit sorted))).length := by
        have : (sorted.filter (fun x => decide (x ∉ ML.walk limit sorted)))
            = (sorted.filter (fun x => !(decide (x ∈ ML.walk limit sorted)))) := by
          simp [decide_not]
        rw [this]
        omega
      rw [List.length_take, List.length_append, List.length_take,
        min_eq_left hnotlen, Nat.add_sub_cancel' hless.le, min_self, min_eq_left hgt.le]
    · rw [if_neg hless, List.length_take, min_eq_left (not_lt.1 hless),
        min_eq_left hgt.le]
  · rw [if_neg hgt, List.length_take]

/-- One step of `process_content`: the item gets exactly one verdict, and
either the comparison window is unchanged and the verdict is not `kept`,
or the item was kept — in which case it passed duplicate detection, and
its cleaned copy joins the window. -/
theorem processItem_cases (o : CF.DupOracle) (clean : String → String)
    (st : CF.RunState) (it : CF.Item) :
    ∃ v : CF.Verdict,
      (CF.processItem o clean st it).outs = st.outs ++ [(it, v)]
      ∧ ((CF.processItem o clean st it).existing = st.existing ∧ v.isKept = false
         ∨ ((CF.processItem o clean st it).existing
              = st.existing ++ [{ it with content_summary := clean it.content_summary }]
            ∧ v = CF.Verdict.kept ∧ CF.is_duplicate o it st.existing = none)) := by
  unfold CF.processItem
  split
  next hshort => exact ⟨CF.Verdict.tooShort, rfl, Or.inl ⟨rfl, rfl⟩⟩
  next hshort =>
    split
    next r heq => exact ⟨CF.Verdict.duplicate r, rfl, Or.inl ⟨rfl, rfl⟩⟩
    next heq =>
      split
      next hq => exact ⟨CF.Verdict.lowQuality, rfl, Or.inl ⟨rfl, rfl⟩⟩
      next hq => exact ⟨CF.Verdict.kept, rfl, Or.inr ⟨rfl, rfl, heq⟩⟩

/-- Invariant of the `process_content` loop behind URL deduplication: at
most one item with a given nonempty stripped URL is ever kept, because the
first kept copy enters the comparison window and URL matching then rejects
every later one. -/
theorem process_url_aux (o : CF.DupOracle) (clean : String → String) (u : String)
    (hu : u ≠ "") (batch : List CF.Item) :
    ∀ st : CF.RunState,
      st.outs.countP (fun p => p.2.isKept && (pyStrip p.1.url == u)) ≤ 1 →
      (1 ≤ st.outs.countP (fun p => p.2.isKept && (pyStrip p.1.url == u)) →
        ∃ e ∈ st.existing, pyStrip e.url = u) →
      (batch.foldl (CF.processItem o clean) st).outs.countP
        (fun p => p.2.isKept && (pyStrip p.1.url == u)) ≤ 1 := by
  induction batch with
  | nil => intro st h1 _; simpa using h1
  | cons it rest ih =>
    intro st h1 h2
    rw [List.foldl_cons]
    obtain ⟨v, houts, hcase⟩ := processItem_cases o clean st it
    rcases hcase with ⟨hex, hnk⟩ | ⟨hex, hv, hdup⟩
    · have hite : (if ((it, v).2.isKept && (pyStrip (it, v).1.url == u)) = true
          then 1 else 0) = 0 := by simp [hnk]
      apply ih
      · rw [houts, List.countP_append, List.countP_cons, List.countP_nil, hite]
        omega
      · intro hge
        rw [houts, List.countP_append, List.countP_cons, List.countP_nil, hite] at hge
        rw [hex]
        exact h2 (by omega)
    · by_cases hx : pyStrip it.url = u
      · have hzero : st.outs.countP (fun p => p.2.isKept && (pyStrip p.1.url == u)) = 0 := by
          by_contra hnz
          obtain ⟨e, hmem, heu⟩ := h2 (by omega)
          have hurl : CF.urlDup it st.existing = false := by
            cases hud : CF.urlDup it st.existing
            · rfl
            · rw [CF.is_duplicate, if_pos hud] at hdup
              exact Option.noConfusion hdup
          have hne : (pyStrip it.url == "") = false := by
            rw [hx]
            exact beq_eq_false_iff_ne.mpr hu
          have htrue : st.existing.any (fun e2 => pyStrip e2.url == pyStrip it.url) = true :=
            List.any_eq_true.mpr ⟨e, hmem, by rw [heu, hx]; exact beq_self_eq_true u⟩
          rw [CF.urlDup, hne, Bool.not_false, Bool.true_and, htrue] at hurl
          exact Bool.noConfusion hurl
        have hite : (if ((it, v).2.isKept && (pyStrip (it, v).1.url == u)) = true
            then 1 else 0) = 1 := by simp [hv, CF.Verdict.isKept, hx]
        apply ih
        · rw [houts, List.countP_append, List.countP_cons, List.countP_nil, hite, hzero]
        · intro _
          refine ⟨{ it with content_summary := clean it.content_summary }, ?_, hx⟩
          rw [hex]
          simp
      · have hb : (pyStrip it.url == u) = false := beq_eq_false_iff_ne.mpr hx
        have hite : (if ((it, v).2.isKept && (pyStrip (it, v).1.url == u)) = true
            then 1 else 0) = 0 := by simp [hb]
        apply ih
        · rw [houts, List.countP_append, List.countP_cons, List.countP_nil, hite]
          omega
        · intro hge
          rw [houts, List.countP_append, List.countP_cons, List.countP_nil, hite] at hge
          obtain ⟨e, hmem, heu⟩ := h2 (by omega)
          exact ⟨e, by rw [hex]; exact List.mem_append_left _ hmem, heu⟩


/-- Evaluation helper for `qualityRaw` on items with a neutral title,
sentence structure, source, domain and no fluff: only the content-length
contribution `L`, the ad-phrase penalty and the vote feedback remain. -/
theorem qualityRaw_plain (it : CF.Item) (L : ℚ)
    (hld : CF.lengthDelta it.content_summary = L)
    (ht : ¬it.title.length < 5) (ht2 : ¬80 < it.title.length)
    (hcb : (CF.clickbaitPhrases.any fun p => containsStr (lower it.title) p) = false)
    (hfl : CF.fluffCount it.content_summary = 0)
    (hne : it.content_summary ≠ "")
    (hs1 : ¬25 < it.avgWps) (hs2 : ¬it.avgWps < 8)
    (hsrc : ¬(it.source ≠ "" ∧ (CF.reputableSources.any
        fun r => containsStr (lower it.source) r) = true))
    (hurl : it.url ≠ "")
    (htld : ¬(CF.suspiciousTlds.any fun t => endsWithStr it.domain t) = true)
    (hdom : ¬(it.source ≠ "" ∧ it.domain.length < 10 ∧ containsStr it.domain "." = true
        ∧ ¬(CF.reputableSources.any fun r => containsStr (lower it.domain) r) = true)) :
    CF.qualityRaw it = 1/2 + L + CF.adDelta it.content_summary
      + CF.votesDelta it.upvotes it.downvotes := by
  rw [CF.qualityRaw, hld, CF.titleDelta, if_neg ht, if_neg ht2,
    CF.clickbaitDelta, if_neg (by simp [hcb]),
    CF.fluffDelta, if_neg (by simp [hfl]),
    CF.sentenceDelta, if_pos hne, if_neg hs1, if_neg hs2,
    CF.sourceDelta, if_neg hsrc,
    CF.urlDelta, if_pos hurl, if_neg htld, if_neg hdom]
  ring

/-! ## Claims -/


/-- Item with two distinct ad phrases in otherwise neutral content. -/
def c8A : CF.Item :=
  { url := "http://news.ledger.example/f", title := "Vendor fair report",
    content_summary := "The vendor fair opened downtown on Saturday. Sellers offered buy now pricing and shared a promo code with early visitors to the main hall.",
    source := "Plain Ledger", domain := "news.ledger.example",
    upvotes := 0, downvotes := 0, avgWps := 15 }

/-- The same item with a third distinct ad phrase appended. -/
def c8B : CF.Item :=
  { c8A with
    content_summary := "The vendor fair opened downtown on Saturday. Sellers offered buy now pricing and shared a promo code with early visitors to the main hall. Staff urged visitors to shop now before closing time." }

/-- Item with no ad phrases, used to witness the amended monotonicity. -/
def c8wA : CF.Item :=
  { c8A with
    content_summary := "The vendor fair opened downtown on Saturday morning with strong attendance from local residents and families." }

/-- The previous item with one ad phrase appended. -/
def c8wB : CF.Item :=
  { c8A with
    content_summary := "The vendor fair opened downtown on Saturday morning with strong attendance from local residents and families. Sellers asked patrons to buy now before closing." }

/-- **C8** (counterexample).  Adding one more distinct ad phrase to content
that already carries two leaves `quality_score` unchanged: the ad penalty
`-0.1 * min(1, count/2)` saturates at two phrases, so the claimed strict
decrease fails. -/
theorem C8_counterexample :
    c8B = { c8A with content_summary := c8B.content_summary }
    ∧ CF.adCount c8B.content_summary = CF.adCount c8A.content_summary + 1
    ∧ CF.calculate_quality_score c8B = CF.calculate_quality_score c8A := by
  have hdA : CF.adDelta c8A.content_summary = -(1/10) := by
    have hc : CF.adCount c8A.content_summary = 2 := by decide
    rw [CF.adDelta, hc, if_pos (by omega)]
    norm_num
  have hdB : CF.adDelta c8B.content_summary = -(1/10) := by
    have hc : CF.adCount c8B.content_summary = 3 := by decide
    rw [CF.adDelta, hc, if_pos (by omega)]
    rw [min_eq_left (by norm_num : (1:ℚ) ≤ ((3:ℕ):ℚ)/2)]
    norm_num
  have hrA : CF.qualityRaw c8A = 1/2 + 0 + CF.adDelta c8A.content_summary
      + CF.votesDelta c8A.upvotes c8A.downvotes :=
    qualityRaw_plain c8A 0 (by rw [CF.lengthDelta, if_neg (by decide), if_neg (by decide),
        if_neg (by decide)]) (by decide) (by decide) (by decide) (by decide) (by decide)
      (by decide) (by decide) (by decide) (by decide) (by decide) (by decide)
  have hrB : CF.qualityRaw c8B = 1/2 + 0 + CF.adDelta c8B.content_summary
      + CF.votesDelta c8B.upvotes c8B.downvotes :=
    qualityRaw_plain c8B 0 (by rw [CF.lengthDelta, if_neg (by decide), if_neg (by decide),
        if_neg (by decide)]) (by decide) (by decide) (by decide) (by decide) (by decide)
      (by decide) (by decide) (by decide) (by decide) (by decide) (by decide)
  have hvA : CF.votesDelta c8A.upvotes c8A.downvotes = 0 := by decide
  have hvB : CF.votesDelta c8B.upvotes c8B.downvotes = 0 := by decide
  refine ⟨by decide, by decide, ?_⟩
  rw [CF.calculate_quality_score, CF.calculate_quality_score, hrA, hrB, hdA, hdB, hvA, hvB]

/-- **C8** (amended).  Adding one more distinct ad phrase strictly
decreases `quality_score` (by exactly 1/20) only while the prior count is
below the penalty cap of 2, the other quality contributions are unchanged,
and the score stays strictly inside the `[0,1]` clamp; at or beyond two
distinct phrases the penalty saturates and the score is unchanged. -/
theorem C8_amended (it : CF.Item) (c₁ c₂ : String)
    (h₁ : c₁ ≠ "") (h₂ : c₂ ≠ "")
    (hlen : CF.lengthDelta c₂ = CF.lengthDelta c₁)
    (hfluff : CF.fluffCount c₂ = CF.fluffCount c₁)
    (hcap : CF.adCount c₁ < 2)
    (had : CF.adCount c₂ = CF.adCount c₁ + 1)
    (hlo : 0 < CF.qualityRaw { it with content_summary := c₂ })
    (hhi : CF.qualityRaw { it with content_summary := c₁ } ≤ 1) :
    CF.calculate_quality_score { it with content_summary := c₂ }
      < CF.calculate_quality_score { it with content_summary := c₁ } := by
  have hdelta : CF.adDelta c₂ = CF.adDelta c₁ - 1/20 := by
    interval_cases h : CF.adCount c₁
    · rw [CF.adDelta, CF.adDelta, had, h, if_pos (by omega), if_neg (by omega)]
      rw [min_eq_right (by norm_num : ((0+1:ℕ):ℚ)/2 ≤ 1)]
      push_cast
      ring
    · rw [CF.adDelta, CF.adDelta, had, h, if_pos (by omega), if_pos (by omega)]
      rw [min_eq_right (by norm_num : ((1:ℕ):ℚ)/2 ≤ 1),
        min_eq_left (by norm_num : (1:ℚ) ≤ ((1+1:ℕ):ℚ)/2)]
      push_cast
      ring
  have hraw : CF.qualityRaw { it with content_summary := c₂ }
      = CF.qualityRaw { it with content_summary := c₁ } - 1/20 := by
    simp only [CF.qualityRaw]
    rw [hdelta, hlen]
    rw [CF.fluffDelta, CF.fluffDelta, hfluff]
    rw [CF.sentenceDelta, CF.sentenceDelta, if_pos h₂, if_pos h₁]
    ring
  have hlt : CF.qualityRaw { it with content_summary := c₂ }
      < CF.qualityRaw { it with content_summary := c₁ } := by
    rw [hraw]; linarith
  rw [CF.calculate_quality_score, CF.calculate_quality_score, clamp01, clamp01,
    min_eq_right (by linarith : CF.qualityRaw { it with content_summary := c₂ } ≤ 1),
    min_eq_right hhi,
    max_eq_right hlo.le,
    max_eq_right (by linarith : (0:ℚ) ≤ CF.qualityRaw { it with content_summary := c₁ })]
  exact hlt

/-- Witness for the amended C8: appending one ad phrase to ad-free neutral
content strictly decreases the quality score. -/
theorem C8_witness :
    CF.adCount c8wA.content_summary = 0
    ∧ CF.adCount c8wB.content_summary = 1
    ∧ CF.calculate_quality_score c8wB < CF.calculate_quality_score c8wA := by
  have hrA : CF.qualityRaw c8wA = 1/2 + 0 + CF.adDelta c8wA.content_summary
      + CF.votesDelta c8wA.upvotes c8wA.downvotes :=
    qualityRaw_plain c8wA 0 (by rw [CF.lengthDelta, if_neg (by decide), if_neg (by decide),
        if_neg (by decide)]) (by decide) (by decide) (by decide) (by decide) (by decide)
      (by decide) (by decide) (by decide) (by decide) (by decide) (by decide)
  have hrB : CF.qualityRaw c8wB = 1/2 + 0 + CF.adDelta c8wB.content_summary
      + CF.votesDelta c8wB.upvotes c8wB.downvotes :=
    qualityRaw_plain c8wB 0 (by rw [CF.lengthDelta, if_neg (by decide), if_neg (by decide),
        if_neg (by decide)]) (by decide) (by decide) (by decide) (by decide) (by decide)
      (by decide) (by decide) (by decide) (by decide) (by decide) (by decide)
  have hdA : CF.adDelta c8wA.content_summary = 0 := by
    rw [CF.adDelta, if_neg (by decide)]
  have hdB : CF.adDelta c8wB.content_summary = -(1/20) := by
    have hc : CF.adCount c8wB.content_summary = 1 := by decide
    rw [CF.adDelta, hc, if_pos (by omega)]
    rw [min_eq_right (by norm_num : ((1:ℕ):ℚ)/2 ≤ 1)]
    push_cast
    ring
  have hvA : CF.votesDelta c8wA.upvotes c8wA.downvotes = 0 := by decide
  have hvB : CF.votesDelta c8wB.upvotes c8wB.downvotes = 0 := by decide
  refine ⟨by decide, by decide, ?_⟩
  have hbeq : c8wB = { c8wA with content_summary := c8wB.content_summary } := by decide
  rw [hbeq]
  have haeq : c8wA = { c8wA with content_summary := c8wA.content_summary } := by decide
  rw [haeq]
  apply C8_amended c8wA c8wA.content_summary c8wB.content_summary
    (by decide) (by decide) (by decide) (by decide) (by decide) (by decide)
  · rw [show ({ c8wA with content_summary := c8wB.content_summary } : CF.Item) = c8wB
      from by decide, hrB, hdB, hvB]
    norm_num
  · rw [show ({ c8wA with content_summary := c8wA.content_summary } : CF.Item) = c8wA
      from by decide, hrA, hdA, hvA]
    norm_num



/-- A dynamic preference value that is a number within `[0, 100]` (a
well-formed caller weight). -/
def RE.isNum01 : RE.PyVal → Bool
  | .num q => decide (0 ≤ q) && decide (q ≤ 100)
  | _ => false

theorem isNum01_num_iff (q : ℚ) : RE.isNum01 (.num q) = true ↔ 0 ≤ q ∧ q ≤ 100 := by
  simp [RE.isNum01]

/-- Merging interaction-derived interests into a well-formed weights dict
succeeds and keeps every stored weight inside `[0, 100]`. -/
theorem mergeWeights_wf (interests : List (String × ℚ)) :
    ∀ d : List (String × RE.PyVal),
      (∀ p ∈ d, RE.isNum01 p.2 = true) →
      (∀ p ∈ interests, 0 ≤ p.2 ∧ p.2 ≤ 100) →
      ∃ d2, RE.mergeWeights (.dict d) interests = .ok (.dict d2)
        ∧ ∀ p ∈ d2, RE.isNum01 p.2 = true := by
  induction interests with
  | nil => intro d hd _; exact ⟨d, rfl, hd⟩
  | cons ci rest ih =>
    intro d hd hi
    have hcur : RE.isNum01 ((List.lookup ci.1 d).getD (.num 0)) = true :=
      getD_lookup_of_forall (P := fun v => RE.isNum01 v = true) d ci.1 _ hd (by decide)
    rcases hv : (List.lookup ci.1 d).getD (.num 0) with q | sv | l | dd | b
    case null => rw [hv] at hcur; simp [RE.isNum01] at hcur
    case str => rw [hv] at hcur; simp [RE.isNum01] at hcur
    case arr => rw [hv] at hcur; simp [RE.isNum01] at hcur
    case dict => rw [hv] at hcur; simp [RE.isNum01] at hcur
    case boolean => rw [hv] at hcur; simp [RE.isNum01] at hcur
    case num =>
      rw [hv] at hcur
      have hq := (isNum01_num_iff q).1 hcur
      have hci := hi ci (by simp)
      have hmax : RE.isNum01 (.num (max q ci.2)) = true :=
        (isNum01_num_iff _).2 ⟨le_max_of_le_left hq.1, max_le hq.2 hci.2⟩
      have hnew : ∀ p ∈ RE.dictSet d ci.1 (.num (max q ci.2)), RE.isNum01 p.2 = true := by
        intro p hp
        rw [RE.dictSet] at hp
        split at hp
        · obtain ⟨p0, hp0, hpe⟩ := List.mem_map.1 hp
          by_cases hk2 : p0.1 == ci.1
          · rw [if_pos hk2] at hpe
            rw [← hpe]
            exact hmax
          · rw [if_neg hk2] at hpe
            rw [← hpe]
            exact hd p0 hp0
        · rcases List.mem_append.1 hp with hp2 | hp2
          · exact hd p hp2
          · have : p = (ci.1, RE.PyVal.num (max q ci.2)) := by simpa using hp2
            rw [this]
            exact hmax
      obtain ⟨d2, hmw, hall⟩ := ih (RE.dictSet d ci.1 (.num (max q ci.2))) hnew
        (fun p hp => hi p (by simp [hp]))
      refine ⟨d2, ?_, hall⟩
      rw [RE.mergeWeights, RE.dictGet, hv]
      exact hmw

/-- The category score of `recommend` on a well-formed weights dict is a
number in `[0, 1]`. -/
theorem categoryScoreE_bounds (d : List (String × RE.PyVal)) (cat : String)
    (hd : ∀ p ∈ d, RE.isNum01 p.2 = true) :
    ∃ cs, RE.categoryScoreE (.dict d) cat = .ok cs ∧ 0 ≤ cs ∧ cs ≤ 1 := by
  have hcur : RE.isNum01 ((List.lookup cat d).getD (.num 0)) = true :=
    getD_lookup_of_forall (P := fun v => RE.isNum01 v = true) d cat _ hd (by decide)
  rcases hv : (List.lookup cat d).getD (.num 0) with q | sv | l | dd | b
  case null => rw [hv] at hcur; simp [RE.isNum01] at hcur
  case str => rw [hv] at hcur; simp [RE.isNum01] at hcur
  case arr => rw [hv] at hcur; simp [RE.isNum01] at hcur
  case dict => rw [hv] at hcur; simp [RE.isNum01] at hcur
  case boolean => rw [hv] at hcur; simp [RE.isNum01] at hcur
  case num =>
    rw [hv] at hcur
    have hq := (isNum01_num_iff q).1 hcur
    refine ⟨q / 100, ?_, div_nonneg hq.1 (by norm_num), ?_⟩
    · rw [RE.categoryScoreE, RE.dictGet, hv]
      rfl
    · rw [div_le_one (by norm_num)]
      linarith

/-- The vote-score component lies in `[0, 1]` for non-negative counts. -/
theorem voteScorePart_bounds (r : RE.RatingData)
    (hu : 0 ≤ r.upvotes) (hd : 0 ≤ r.downvotes) :
    0 ≤ RE.voteScorePart r ∧ RE.voteScorePart r ≤ 1 := by
  rw [RE.voteScorePart]
  split
  · have hc0 : 0 ≤ min 1 ((r.upvotes + r.downvotes) / 10) :=
      le_min (by norm_num) (div_nonneg (by linarith) (by norm_num))
    have hc1 : min 1 ((r.upvotes + r.downvotes) / 10) ≤ 1 := min_le_left _ _
    have hp0 : 0 ≤ (r.upvotes + 1) / (r.upvotes + r.downvotes + 2) :=
      div_nonneg (by linarith) (by linarith)
    have hp1 : (r.upvotes + 1) / (r.upvotes + r.downvotes + 2) ≤ 1 := by
      rw [div_le_one (by linarith)]
      linarith
    constructor <;> nlinarith
  · norm_num

/-- The engagement component lies in `[0, 1]` for non-negative counts. -/
theorem engagementPart_bounds (r : RE.RatingData)
    (hu : 0 ≤ r.upvotes) (hd : 0 ≤ r.downvotes) (hc : 0 ≤ r.comment_count) :
    0 ≤ RE.engagementPart r ∧ RE.engagementPart r ≤ 1 := by
  rw [RE.engagementPart]
  split
  · exact ⟨le_min (by norm_num) (div_nonneg (by linarith) (by norm_num)), min_le_left _ _⟩
  · exact ⟨le_min (by norm_num) (div_nonneg (by linarith) (by norm_num)), min_le_left _ _⟩

/-- The discussion component lies in `[0, 1]` for a non-negative comment
count. -/
theorem discussionPart_bounds (r : RE.RatingData) (hc : 0 ≤ r.comment_count) :
    0 ≤ RE.discussionPart r ∧ RE.discussionPart r ≤ 1 :=
  ⟨le_min (by norm_num) (div_nonneg hc (by norm_num)), min_le_left _ _⟩

/-- `calculate_rating_score` lies in `[0, 1]` for non-negative vote and
comment counts, regardless of the confidence boost. -/
theorem calculate_rating_score_bounds (r : RE.RatingData)
    (hu : 0 ≤ r.upvotes) (hd : 0 ≤ r.downvotes) (hc : 0 ≤ r.comment_count) :
    0 ≤ RE.calculate_rating_score r ∧ RE.calculate_rating_score r ≤ 1 := by
  have hv := voteScorePart_bounds r hu hd
  have he := engagementPart_bounds r hu hd hc
  have hdi := discussionPart_bounds r hc
  rw [RE.calculate_rating_score]
  split
  · refine ⟨le_min (by norm_num) (by nlinarith [hv.1, he.1, hdi.1]), min_le_left _ _⟩
  · constructor <;> nlinarith [hv.1, hv.2, he.1, he.2, hdi.1, hdi.2]

/-- The keyword-match component lies in `[0, 1]` when the user's keyword
weights are non-negative. -/
theorem keywordScore_bounds (ikw : List (String × ℚ)) (c : RE.Content)
    (hk : ∀ p ∈ ikw, 0 ≤ p.2) :
    0 ≤ RE.keywordScore ikw c ∧ RE.keywordScore ikw c ≤ 1 := by
  rw [RE.keywordScore]
  split
  · norm_num
  · split
    · have hsum : 0 ≤ ((RE.extract_keywords (c.content_summary ++ " " ++ c.title)).map
          fun k => ((List.lookup k ikw).getD 0) / 100).sum := by
        apply List.sum_nonneg
        intro x hx
        obtain ⟨k, hk2, rfl⟩ := List.mem_map.1 hx
        exact div_nonneg
          (getD_lookup_of_forall (P := fun q => 0 ≤ q) ikw k 0 hk (le_refl 0))
          (by norm_num)
      refine ⟨le_min (by norm_num) ?_, min_le_left _ _⟩
      apply mul_nonneg (div_nonneg hsum (by positivity)) (by norm_num)
    · norm_num

/-- The final weighted combination of four `[0, 1]` components with a
`[0, 1]` rating weight stays inside `[0, 1]`. -/
theorem finalScore_bounds (rwq cs fs ks rs : ℚ)
    (hrw : 0 ≤ rwq ∧ rwq ≤ 1) (hcs : 0 ≤ cs ∧ cs ≤ 1) (hfs : 0 ≤ fs ∧ fs ≤ 1)
    (hks : 0 ≤ ks ∧ ks ≤ 1) (hrs : 0 ≤ rs ∧ rs ≤ 1) :
    0 ≤ RE.finalScore rwq cs fs ks rs ∧ RE.finalScore rwq cs fs ks rs ≤ 1 := by
  rw [RE.finalScore]
  have h1 : (1 - rwq) * ((1/2) * cs + (3/10) * fs + (1/5) * ks) ≤ (1 - rwq) * 1 :=
    mul_le_mul_of_nonneg_left (by linarith) (by linarith)
  have h2 : rwq * rs ≤ rwq * 1 := mul_le_mul_of_nonneg_left hrs.2 hrw.1
  have h3 : 0 ≤ (1 - rwq) * ((1/2) * cs + (3/10) * fs + (1/5) * ks) :=
    mul_nonneg (by linarith) (by linarith)
  have h4 : 0 ≤ rwq * rs := mul_nonneg hrw.1 hrs.1
  constructor <;> nlinarith



/-- **C1** (confirmed).  For well-formed inputs — caller weight values and
`rating_weight` in `[0, 100]`, interaction-derived interest and keyword
weights in their documented `[0, 100]` ranges, non-negative vote/comment
counts, and a freshness value in `[0, 1]` (which `exp(-0.03*age)` yields
for every non-negative content age) — merging preferences succeeds and the
final per-item recommendation score of `recommend` is within `[0, 1]`;
and the filter's `quality_score` is clamped into `[0, 1]` for every item
whatsoever. -/
theorem C1_score_bounds
    (d : List (String × RE.PyVal)) (interests interestKw : List (String × ℚ))
    (ratings : List (String × RE.RatingData)) (c : RE.Content) (rwPref : ℚ)
    (it : CF.Item)
    (hd : ∀ p ∈ d, RE.isNum01 p.2 = true)
    (hi : ∀ p ∈ interests, 0 ≤ p.2 ∧ p.2 ≤ 100)
    (hk : ∀ p ∈ interestKw, 0 ≤ p.2)
    (hr : ∀ p ∈ ratings, 0 ≤ p.2.upvotes ∧ 0 ≤ p.2.downvotes ∧ 0 ≤ p.2.comment_count)
    (hrw : 0 ≤ rwPref ∧ rwPref ≤ 100)
    (hf : 0 ≤ c.freshness ∧ c.freshness ≤ 1) :
    (∃ d2 s, RE.mergeWeights (.dict d) interests = .ok (.dict d2)
        ∧ RE.scoreItemE (.dict d2) (rwPref / 100) interestKw ratings c = .ok s
        ∧ 0 ≤ s ∧ s ≤ 1)
    ∧ 0 ≤ CF.calculate_quality_score it ∧ CF.calculate_quality_score it ≤ 1 := by
  refine ⟨?_, clamp01_nonneg _, clamp01_le_one _⟩
  obtain ⟨d2, hmw, hall⟩ := mergeWeights_wf interests d hd hi
  obtain ⟨cs, hcs, hcs0, hcs1⟩ := categoryScoreE_bounds d2 c.category hall
  have hrd := getD_lookup_of_forall
    (P := fun rd : RE.RatingData => 0 ≤ rd.upvotes ∧ 0 ≤ rd.downvotes ∧ 0 ≤ rd.comment_count)
    ratings c.id RE.defaultRating hr (by norm_num [RE.defaultRating])
  have hrs := calculate_rating_score_bounds _ hrd.1 hrd.2.1 hrd.2.2
  have hks := keywordScore_bounds interestKw c hk
  have hrw2 : 0 ≤ rwPref / 100 ∧ rwPref / 100 ≤ 1 := by
    constructor
    · exact div_nonneg hrw.1 (by norm_num)
    · rw [div_le_one (by norm_num)]
      linarith
  have hfin := finalScore_bounds (rwPref / 100) cs c.freshness
    (RE.keywordScore interestKw c)
    (RE.calculate_rating_score ((List.lookup c.id ratings).getD RE.defaultRating))
    hrw2 ⟨hcs0, hcs1⟩ hf hks hrs
  refine ⟨d2, _, hmw, ?_, hfin.1, hfin.2⟩
  rw [RE.scoreItemE, hcs]
  rfl

/-- Witness for C1 at concrete well-formed inputs. -/
theorem C1_witness :
    ((∀ p ∈ [("Tech", RE.PyVal.num 90)], RE.isNum01 p.2 = true)
      ∧ (∀ p ∈ [("Sports", (70 : ℚ))], 0 ≤ p.2 ∧ p.2 ≤ 100)
      ∧ (∀ p ∈ [("alpha", (100 : ℚ))], 0 ≤ p.2)
      ∧ (∀ p ∈ [("c1", (⟨5, 1, 2, 80, 120⟩ : RE.RatingData))],
          0 ≤ p.2.upvotes ∧ 0 ≤ p.2.downvotes ∧ 0 ≤ p.2.comment_count)
      ∧ ((0 : ℚ) ≤ 50 ∧ (50 : ℚ) ≤ 100))
    ∧ ((∃ d2 s, RE.mergeWeights (.dict [("Tech", RE.PyVal.num 90)]) [("Sports", 70)]
          = .ok (.dict d2)
        ∧ RE.scoreItemE (.dict d2) ((50 : ℚ) / 100) [("alpha", 100)]
            [("c1", ⟨5, 1, 2, 80, 120⟩)]
            ⟨"c1", "Tech", "Alpha news", "Beta summary", 1⟩ = .ok s
        ∧ 0 ≤ s ∧ s ≤ 1)
      ∧ 0 ≤ CF.calculate_quality_score ⟨"u", "t", "s", "src", "d", 0, 0, 0⟩
      ∧ CF.calculate_quality_score ⟨"u", "t", "s", "src", "d", 0, 0, 0⟩ ≤ 1) :=
  ⟨⟨by decide, by decide, by decide, by decide, by decide⟩,
   C1_score_bounds [("Tech", RE.PyVal.num 90)] [("Sports", 70)] [("alpha", 100)]
     [("c1", ⟨5, 1, 2, 80, 120⟩)] ⟨"c1", "Tech", "Alpha news", "Beta summary", 1⟩ 50
     ⟨"u", "t", "s", "src", "d", 0, 0, 0⟩
     (by decide) (by decide) (by decide) (by decide) (by decide) (by decide)⟩


/-- First-processed item of the C3 pair: neutral quality (score 0.5). -/
def c3A : CF.Item :=
  { url := "http://harbor-one.example/a", title := "Morning harbor report",
    content_summary := "The harbor opened quietly on Monday as crews loaded crates of fresh produce onto the first boats bound for the northern villages.",
    source := "Random Blog", domain := "harbor-one.example",
    upvotes := 0, downvotes := 0, avgWps := 12 }

/-- Second-processed item of the C3 pair: strictly higher quality (its
longer content earns the substantial-length bonus, score 0.6). -/
def c3B : CF.Item :=
  { url := "http://valley-two.example/b", title := "Evening valley dispatch",
    content_summary := "The valley market closed later than planned on Friday evening because the wagons from the eastern farms arrived well after sunset. Traders stacked the remaining crates of grain beside the old stone bridge and counted the receipts by lantern light. The council clerk noted the totals in the ledger and promised to post the final figures on the town board before the next market day. Several farmers stayed the night at the inn near the river so that they could start the return journey at first light with empty wagons and settled accounts.",
    source := "Random Blog", domain := "valley-two.example",
    upvotes := 0, downvotes := 0, avgWps := 12 }

/-- Similarity oracle of the C3 scenario: the TF-IDF pass reports maximum
cosine similarity 0.9 for the second item against the corpus, title ratios
are negligible. -/
def c3oracle : CF.DupOracle :=
  { titleRatio := fun _ _ => 0,
    maxSim := fun c _ => if c = pyStrip c3B.content_summary then 9/10 else 0 }

/-- Quality score of the first C3 item: exactly 0.5. -/
theorem c3A_quality : CF.calculate_quality_score c3A = 1/2 := by
  have hr : CF.qualityRaw c3A = 1/2 + 0 + CF.adDelta c3A.content_summary
      + CF.votesDelta c3A.upvotes c3A.downvotes :=
    qualityRaw_plain c3A 0 (by rw [CF.lengthDelta, if_neg (by decide), if_neg (by decide),
        if_neg (by decide)]) (by decide) (by decide) (by decide) (by decide) (by decide)
      (by decide) (by decide) (by decide) (by decide) (by decide) (by decide)
  have had : CF.adDelta c3A.content_summary = 0 := by
    rw [CF.adDelta, if_neg (by decide)]
  have hv : CF.votesDelta c3A.upvotes c3A.downvotes = 0 := by decide
  rw [CF.calculate_quality_score, hr, had, hv, clamp01]
  norm_num

/-- Quality score of the second C3 item: 0.6. -/
theorem c3B_quality : CF.calculate_quality_score c3B = 3/5 := by
  have hr : CF.qualityRaw c3B = 1/2 + 1/10 + CF.adDelta c3B.content_summary
      + CF.votesDelta c3B.upvotes c3B.downvotes :=
    qualityRaw_plain c3B (1/10) (by rw [CF.lengthDelta, if_neg (by decide),
        if_neg (by decide), if_pos (by decide)]) (by decide) (by decide) (by decide)
      (by decide) (by decide) (by decide) (by decide) (by decide) (by decide) (by decide)
      (by decide)
  have had : CF.adDelta c3B.content_summary = 0 := by
    rw [CF.adDelta, if_neg (by decide)]
  have hv : CF.votesDelta c3B.upvotes c3B.downvotes = 0 := by decide
  rw [CF.calculate_quality_score, hr, had, hv, clamp01]
  norm_num

/-- The title check finds nothing for the second C3 item against the kept
first one. -/
theorem c3B_titleDup : CF.titleDup c3oracle c3B [c3A] = none := by
  rw [CF.titleDup, if_pos (by decide), List.findSome?_cons]
  rw [if_neg (by decide)]
  rw [if_neg ?hr]
  · rfl
  case hr =>
    rintro ⟨-, hlt⟩
    have h0 : c3oracle.titleRatio (lower (pyStrip c3B.title)) (lower (pyStrip c3A.title))
        = 0 := rfl
    rw [h0] at hlt
    norm_num at hlt

/-- The content check reports a similarity of 0.9 > 0.85 for the second C3
item against the corpus containing the kept first one. -/
theorem c3B_contentDup :
    CF.contentDup c3oracle c3B [c3A] = some CF.DupReason.contentSimilar := by
  rw [CF.contentDup, if_pos (by decide), if_pos ?h]
  case h =>
    refine ⟨by decide, ?_⟩
    have hms : c3oracle.maxSim (pyStrip c3B.content_summary)
        (([c3A].map fun e => pyStrip e.content_summary).filter fun s => !(s == ""))
        = 9/10 := by
      show (if pyStrip c3B.content_summary = pyStrip c3B.content_summary
          then (9:ℚ)/10 else 0) = 9/10
      rw [if_pos rfl]
    rw [hms]
    norm_num

/-- Duplicate detection verdict for the second C3 item. -/
theorem c3B_is_duplicate :
    CF.is_duplicate c3oracle c3B [c3A] = some CF.DupReason.contentSimilar := by
  rw [CF.is_duplicate, if_neg (by decide)]
  split
  · rename_i r heq
    rw [c3B_titleDup] at heq
    exact Option.noConfusion heq
  · exact c3B_contentDup

/-- **C3** (counterexample).  Two items whose TF-IDF cosine similarity
(0.9) exceeds the 0.85 threshold, where the REMOVED item is the one with
the strictly HIGHER quality score: the filter drops whichever similar item
is processed later, never comparing quality scores, so the lower-quality
first-processed item survives.  (The recorded reason does mention
similarity.) -/
theorem C3_counterexample :
    (CF.process_content c3oracle id [] [c3A, c3B]).outs
        = [(c3A, CF.Verdict.kept), (c3B, CF.Verdict.duplicate CF.DupReason.contentSimilar)]
    ∧ CF.calculate_quality_score c3A < CF.calculate_quality_score c3B := by
  have hst1 : CF.processItem c3oracle id ⟨[], []⟩ c3A
      = ⟨[c3A], [(c3A, CF.Verdict.kept)]⟩ := by
    rw [CF.processItem, if_neg (by decide)]
    split
    · rename_i r heq
      rw [show CF.is_duplicate c3oracle c3A [] = none from by decide] at heq
      exact Option.noConfusion heq
    · rw [if_neg (by rw [c3A_quality]; norm_num)]
      rfl
  have hst2 : CF.processItem c3oracle id ⟨[c3A], [(c3A, CF.Verdict.kept)]⟩ c3B
      = ⟨[c3A], [(c3A, CF.Verdict.kept),
          (c3B, CF.Verdict.duplicate CF.DupReason.contentSimilar)]⟩ := by
    rw [CF.processItem, if_neg (by decide)]
    split
    · rename_i r heq
      rw [show (⟨[c3A], [(c3A, CF.Verdict.kept)]⟩ : CF.RunState).existing = [c3A] from rfl,
        c3B_is_duplicate] at heq
      injection heq with h
      rw [← h]
      rfl
    · rename_i heq
      rw [show (⟨[c3A], [(c3A, CF.Verdict.kept)]⟩ : CF.RunState).existing = [c3A] from rfl,
        c3B_is_duplicate] at heq
      exact Option.noConfusion heq
  refine ⟨?_, ?_⟩
  · rw [CF.process_content, List.foldl_cons, hst1, List.foldl_cons, hst2, List.foldl_nil]
  · rw [c3A_quality, c3B_quality]
    norm_num

/-- **C3** (amended).  When two items in a run have TF-IDF cosine
similarity above the 0.85 threshold (and the later item is not already
rejected by the URL or title checks), the LATER-PROCESSED item is removed
with a `filter_reason` that mentions similarity, and the earlier item
survives — regardless of which of the two has the higher quality score. -/
theorem C3_amended (o : CF.DupOracle) (clean : String → String) (existing : List CF.Item)
    (A B A2 : CF.Item) (corpus : List String)
    (hA2 : A2 = { A with content_summary := clean A.content_summary })
    (hAlen : ¬(clean A.content_summary).length < 100)
    (hAdup : CF.is_duplicate o A existing = none)
    (hAq : ¬CF.calculate_quality_score A < 1/2)
    (hBlen : ¬(clean B.content_summary).length < 100)
    (hBurl : CF.urlDup B (existing ++ [A2]) = false)
    (hBtitle : CF.titleDup o B (existing ++ [A2]) = none)
    (hBclen : 100 < (pyStrip B.content_summary).length)
    (hcorpus : corpus = ((existing ++ [A2]).map fun e => pyStrip e.content_summary).filter
        fun s => !(s == ""))
    (hcne : corpus ≠ [])
    (hsim : (17 : ℚ)/20 < o.maxSim (pyStrip B.content_summary) corpus) :
    (CF.process_content o clean existing [A, B]).outs
      = [(A, CF.Verdict.kept), (B, CF.Verdict.duplicate CF.DupReason.contentSimilar)]
    ∧ CF.mentionsSimilarity CF.DupReason.contentSimilar = true := by
  have hBne : pyStrip B.content_summary ≠ "" := by
    intro hemp
    rw [hemp] at hBclen
    simp at hBclen
  have hBdup : CF.is_duplicate o B (existing ++ [A2]) = some CF.DupReason.contentSimilar := by
    have hb : ¬(CF.urlDup B (existing ++ [A2]) = true) := by
      rw [hBurl]
      simp
    rw [CF.is_duplicate, if_neg hb]
    split
    · rename_i r heq
      rw [hBtitle] at heq
      exact Option.noConfusion heq
    · rw [CF.contentDup, if_pos ⟨hBne, hBclen⟩, ← hcorpus, if_pos ⟨hcne, hsim⟩]
  have hst1 : CF.processItem o clean ⟨existing, []⟩ A
      = ⟨existing ++ [A2], [(A, CF.Verdict.kept)]⟩ := by
    rw [CF.processItem, if_neg hAlen]
    split
    · rename_i r heq
      rw [show (⟨existing, []⟩ : CF.RunState).existing = existing from rfl, hAdup] at heq
      exact Option.noConfusion heq
    · rw [if_neg hAq, hA2]
      rfl
  have hst2 : CF.processItem o clean ⟨existing ++ [A2], [(A, CF.Verdict.kept)]⟩ B
      = ⟨existing ++ [A2], [(A, CF.Verdict.kept),
          (B, CF.Verdict.duplicate CF.DupReason.contentSimilar)]⟩ := by
    rw [CF.processItem, if_neg hBlen]
    split
    · rename_i r heq
      rw [show (⟨existing ++ [A2], [(A, CF.Verdict.kept)]⟩ : CF.RunState).existing
          = existing ++ [A2] from rfl, hBdup] at heq
      injection heq with h
      rw [← h]
      rfl
    · rename_i heq
      rw [show (⟨existing ++ [A2], [(A, CF.Verdict.kept)]⟩ : CF.RunState).existing
          = existing ++ [A2] from rfl, hBdup] at heq
      exact Option.noConfusion heq
  refine ⟨?_, by decide⟩
  rw [CF.process_content, List.foldl_cons, hst1, List.foldl_cons, hst2, List.foldl_nil]

/-- Witness for the amended C3, instantiated with the concrete similar
pair: the later high-quality item is dropped for similarity while the
earlier lower-quality one is kept. -/
theorem C3_witness :
    (CF.process_content c3oracle id [] [c3A, c3B]).outs
      = [(c3A, CF.Verdict.kept), (c3B, CF.Verdict.duplicate CF.DupReason.contentSimilar)]
    ∧ CF.mentionsSimilarity CF.DupReason.contentSimilar = true :=
  C3_amended c3oracle id [] c3A c3B c3A [pyStrip c3A.content_summary]
    (by decide) (by decide) (by decide)
    (by rw [c3A_quality]; norm_num)
    (by decide) (by decide) c3B_titleDup (by decide) (by decide) (by decide)
    (by
      have hms : c3oracle.maxSim (pyStrip c3B.content_summary) [pyStrip c3A.content_summary]
          = 9/10 := by
        show (if pyStrip c3B.content_summary = pyStrip c3B.content_summary
            then (9:ℚ)/10 else 0) = 9/10
        rw [if_pos rfl]
      rw [hms]
      norm_num)


/-- A neutral, mid-quality item with no votes. -/
def c9base : CF.Item :=
  { url := "http://news.ledger.example/a", title := "Committee reviews the annual budget",
    content_summary := "The committee met on Tuesday to review the annual budget and the road maintenance plan for the coming year in detail.",
    source := "Plain Ledger", domain := "news.ledger.example",
    upvotes := 0, downvotes := 0, avgWps := 12 }

/-- **C9** (counterexample).  At exactly 10 total votes the vote-ratio
adjustment is NOT applied: the code requires strictly more than 10
(`upvotes + downvotes > 10`), so an item with 10 upvotes scores the same
as one with none, while at 11 upvotes the score does change. -/
theorem C9_counterexample :
    CF.calculate_quality_score { c9base with upvotes := 10, downvotes := 0 }
        = CF.calculate_quality_score c9base
    ∧ CF.calculate_quality_score { c9base with upvotes := 11, downvotes := 0 }
        ≠ CF.calculate_quality_score c9base := by
  have hL : CF.lengthDelta c9base.content_summary = 0 := by
    rw [CF.lengthDelta, if_neg (by decide), if_neg (by decide), if_neg (by decide)]
  have hr0 : CF.qualityRaw c9base = 1/2 + 0 + CF.adDelta c9base.content_summary
      + CF.votesDelta c9base.upvotes c9base.downvotes :=
    qualityRaw_plain c9base 0 hL (by decide) (by decide) (by decide) (by decide) (by decide)
      (by decide) (by decide) (by decide) (by decide) (by decide) (by decide)
  have hr10 : CF.qualityRaw { c9base with upvotes := 10, downvotes := 0 }
      = 1/2 + 0 + CF.adDelta c9base.content_summary + CF.votesDelta 10 0 :=
    qualityRaw_plain _ 0 hL (by decide) (by decide) (by decide) (by decide) (by decide)
      (by decide) (by decide) (by decide) (by decide) (by decide) (by decide)
  have hr11 : CF.qualityRaw { c9base with upvotes := 11, downvotes := 0 }
      = 1/2 + 0 + CF.adDelta c9base.content_summary + CF.votesDelta 11 0 :=
    qualityRaw_plain _ 0 hL (by decide) (by decide) (by decide) (by decide) (by decide)
      (by decide) (by decide) (by decide) (by decide) (by decide) (by decide)
  have had : CF.adDelta c9base.content_summary = 0 := by
    rw [CF.adDelta, if_neg (by decide)]
  have hv0 : CF.votesDelta c9base.upvotes c9base.downvotes = 0 := by decide
  have hv10 : CF.votesDelta 10 0 = 0 := by decide
  have hv11 : CF.votesDelta 11 0 = ((11:ℚ) - (0:ℚ)) / ((11:ℚ) + (0:ℚ) + 1) * (1/10) := by
    rw [CF.votesDelta, if_pos (by omega)]
    norm_num
  constructor
  · rw [CF.calculate_quality_score, CF.calculate_quality_score, hr0, hr10, hv0, hv10]
  · rw [CF.calculate_quality_score, CF.calculate_quality_score, hr0, hr11, hv0, hv11, had]
    rw [clamp01, clamp01]
    norm_num

/-- **C9** (amended).  The vote-ratio feedback adjustment is applied iff
the item has STRICTLY MORE than 10 total votes (`upvotes + downvotes ≥
11`); with 10 or fewer total votes the quality score is independent of the
vote counts, and above that bound the raw score gains exactly
`(u - d)/(u + d + 1) * 0.1` before clamping. -/
theorem C9_amended (it : CF.Item) (u d : ℕ) :
    (u + d ≤ 10 →
      CF.calculate_quality_score { it with upvotes := u, downvotes := d }
        = CF.calculate_quality_score { it with upvotes := 0, downvotes := 0 })
    ∧ (10 < u + d →
      CF.calculate_quality_score { it with upvotes := u, downvotes := d }
        = clamp01 (CF.qualityRaw { it with upvotes := 0, downvotes := 0 }
            + ((u : ℚ) - (d : ℚ)) / ((u : ℚ) + (d : ℚ) + 1) * (1/10))) := by
  constructor
  · intro h
    have h1 : CF.votesDelta u d = 0 := by
      rw [CF.votesDelta, if_neg (by omega)]
    have h0 : CF.votesDelta 0 0 = 0 := by decide
    simp only [CF.calculate_quality_score, CF.qualityRaw, h1, h0]
  · intro h
    have h1 : CF.votesDelta u d = ((u : ℚ) - (d : ℚ)) / ((u : ℚ) + (d : ℚ) + 1) * (1/10) := by
      rw [CF.votesDelta, if_pos h]
    have h0 : CF.votesDelta 0 0 = 0 := by decide
    simp only [CF.calculate_quality_score, CF.qualityRaw, h1, h0]
    congr 1
    ring

/-- Witness for the amended C9 at 3+2 votes (no adjustment) and 11+0 votes
(adjustment applied before clamping). -/
theorem C9_witness :
    (3 + 2 ≤ 10
      ∧ CF.calculate_quality_score { c9base with upvotes := 3, downvotes := 2 }
          = CF.calculate_quality_score { c9base with upvotes := 0, downvotes := 0 })
    ∧ (10 < 11 + 0
      ∧ CF.calculate_quality_score { c9base with upvotes := 11, downvotes := 0 }
          = clamp01 (CF.qualityRaw { c9base with upvotes := 0, downvotes := 0 }
              + ((11 : ℚ) - (0 : ℚ)) / ((11 : ℚ) + (0 : ℚ) + 1) * (1/10))) :=
  ⟨⟨by omega, (C9_amended c9base 3 2).1 (by omega)⟩,
   ⟨by omega, (C9_amended c9base 11 0).2 (by omega)⟩⟩


/-- A trivial similarity oracle (never reports any similarity). -/
def c4oracle : CF.DupOracle := ⟨fun _ _ => 0, fun _ _ => 0⟩

/-- First of two same-URL items; its content is under 100 characters. -/
def c4a : CF.Item :=
  { url := "http://dup.example/x", title := "First short note",
    content_summary := "Too short to pass the cleaning length check.",
    source := "", domain := "dup.example", upvotes := 0, downvotes := 0, avgWps := 10 }

/-- Second item sharing the first one's URL, also under 100 characters. -/
def c4b : CF.Item :=
  { c4a with
    title := "Second short note",
    content_summary := "Also far too short to pass the length check." }


/-- **C7** (counterexample).  The claim says the profiler weights a `save`
as ≈ 2.0 and a `share` as ≈ 2.5; the weighting of the source gives both the
default weight 1.0 (only `click` and explicit ratings are special-cased). -/
theorem C7_counterexample :
    ML.interactionWeight "save" none = 1 ∧ ML.interactionWeight "share" none = 1
      ∧ ML.interactionWeight "save" none ≠ 2
      ∧ ML.interactionWeight "share" none ≠ 5/2 := by
  have hs : ML.interactionWeight "save" none = 1 := rfl
  have hh : ML.interactionWeight "share" none = 1 := rfl
  exact ⟨hs, hh, by rw [hs]; norm_num, by rw [hh]; norm_num⟩

/-- **C7** (amended).  The interaction evidence weights actually
accumulated per category and per source are: 1.0 for view, save and share
alike, 1.5 for click (even when an explicit rating is present, since the
click branch is checked first), 3.0 for an explicit `+1` rating and `-1.0`
for an explicit `-1` rating on non-click interactions; one interaction adds
exactly this weight to its content's category and source counters. -/
theorem C7_amended :
    ML.interactionWeight "view" none = 1
    ∧ ML.interactionWeight "click" none = 3/2
    ∧ ML.interactionWeight "click" (some 1) = 3/2
    ∧ ML.interactionWeight "click" (some (-1)) = 3/2
    ∧ ML.interactionWeight "save" none = 1
    ∧ ML.interactionWeight "share" none = 1
    ∧ ML.interactionWeight "view" (some 1) = 3
    ∧ ML.interactionWeight "save" (some 1) = 3
    ∧ ML.interactionWeight "share" (some 1) = 3
    ∧ ML.interactionWeight "view" (some (-1)) = -1
    ∧ ML.interactionWeight "save" (some (-1)) = -1
    ∧ ML.interactionWeight "share" (some (-1)) = -1
    ∧ ML.buildPrefCounters [⟨"c1", "view", none⟩] [⟨"c1", "Tech", "BBC", 2, 0⟩]
        = ([("Tech", ML.interactionWeight "view" none)],
           [("BBC", ML.interactionWeight "view" none)])
    ∧ ML.buildPrefCounters [⟨"c1", "share", some 1⟩] [⟨"c1", "Tech", "BBC", 2, 0⟩]
        = ([("Tech", ML.interactionWeight "share" (some 1))],
           [("BBC", ML.interactionWeight "share" (some 1))]) := by
  refine ⟨rfl, rfl, rfl, rfl, rfl, rfl, rfl, rfl, rfl, rfl, rfl, rfl, rfl, rfl⟩

/-- **C2** (confirmed).  For every preference value (any JSON parse
outcome), any interest/rating/store-fetch environment and any limit, the
CLI entry point around `recommend` returns a list: the exception handler
replaces a raised error by `[]` and the empty list is backfilled with mock
data, so no error passes the boundary. -/
theorem C2_recommend_total (parsed : Option RE.PyVal)
    (interests interestKw : List (String × ℚ)) (ratings : List (String × RE.RatingData))
    (fetch : Except RE.Err (List RE.Content)) (limit : ℕ) :
    ∃ l : List RE.Content,
      RE.cliRecommend parsed interests interestKw ratings fetch limit = Except.ok l :=
  ⟨_, rfl⟩

/-- **C10** (confirmed).  Both engines return at most `limit` items on
every path: a successful CLI run of the heuristic engine (real, fallback or
mock data) and every run of the modelled ML pipeline (candidate set with
diversity selection, or the empty-candidate mock fallback). -/
theorem C10_limit_bound :
    (∀ (parsed : Option RE.PyVal) (interests interestKw : List (String × ℚ))
        (ratings : List (String × RE.RatingData))
        (fetch : Except RE.Err (List RE.Content)) (limit : ℕ) (l : List RE.Content),
        RE.cliRecommend parsed interests interestKw ratings fetch limit = Except.ok l →
        l.length ≤ limit)
    ∧ (∀ (predict : ML.CItem → ℚ) (interactions : List ML.Interaction)
        (prefWeights : List (String × ℚ)) (allContent : List ML.CItem) (limit : ℕ),
        (ML.recommendML predict interactions prefWeights allContent limit).length ≤ limit) := by
  constructor
  · intro parsed interests interestKw ratings fetch limit l h
    simp only [RE.cliRecommend, Except.ok.injEq] at h
    subst h
    split
    · exact length_take_le' _ _
    · rcases hE : RE.recommendE (RE.cliNormalizePrefs parsed) interests interestKw ratings
        fetch limit with e | r
      · simp [hE]
      · simp only [hE]
        exact recommendE_length_le _ _ _ _ _ _ _ hE
  · intro predict interactions prefWeights allContent limit
    simp only [ML.recommendML]
    split
    · exact length_take_le' _ _
    · rw [List.length_map]
      exact diversitySelect_length_le _ _

/-- Candidate pool refuting C5: two categories ("X", "Y") supplying four
eligible candidates each, already in descending score order. -/
def c5pool : List (ML.CItem × ℚ) :=
  [(⟨"x1", "X", "s", 1, 0⟩, 9), (⟨"x2", "X", "s", 1, 0⟩, 8),
   (⟨"x3", "X", "s", 1, 0⟩, 7), (⟨"x4", "X", "s", 1, 0⟩, 6),
   (⟨"y1", "Y", "s", 1, 0⟩, 5), (⟨"y2", "Y", "s", 1, 0⟩, 4),
   (⟨"y3", "Y", "s", 1, 0⟩, 3), (⟨"y4", "Y", "s", 1, 0⟩, 2)]

/-- **C5** (counterexample).  For the top-4 request over two categories
with four eligible candidates each, the walk alone already accepts 4 items
(no backfill is needed), yet category "X" contributes 4 > 3 of them: while
fewer than `0.8 * 4 = 3.2` items are accepted, the escape valve admits
items regardless of the per-category cap, so the fourth "X" item enters at
position 4. -/
theorem C5_counterexample :
    4 < c5pool.length
    ∧ c5pool.countP (fun y => y.1.category == "X") = 4
    ∧ c5pool.countP (fun y => y.1.category == "Y") = 4
    ∧ (ML.walk 4 c5pool).length = 4
    ∧ (ML.diversitySelect 4 c5pool).countP (fun y => y.1.category == "X") = 4 := by
  have hw : ML.walk 4 c5pool =
      [(⟨"x1", "X", "s", 1, 0⟩, 9), (⟨"x2", "X", "s", 1, 0⟩, 8),
       (⟨"x3", "X", "s", 1, 0⟩, 7), (⟨"x4", "X", "s", 1, 0⟩, 6)] := by
    norm_num [ML.walk, ML.walkGo, c5pool]
  have hds : ML.diversitySelect 4 c5pool = ML.walk 4 c5pool := by
    simp only [ML.diversitySelect]
    rw [if_pos (by decide : (4:ℕ) < c5pool.length), if_neg (by rw [hw]; decide)]
    rw [hw]
    rfl
  refine ⟨by decide, by decide, by decide, by rw [hw]; rfl, by rw [hds, hw]; rfl⟩

/-- **C5** (amended).  The diversity walk accepts an item iff its
category count is below the cap (3) or fewer than 80% of the target `K`
items are accepted so far; consequently, when the diversity filter applies
(more candidates than `K`) and no backfill is needed (the walk reaches
`K`), no category contributes more than `max 3 ((4K-1)/5 + 1)` items —
the cap, or one more than the escape valve admits — rather than the
claimed flat cap of 3. -/
theorem C5_amended (limit : ℕ) (sorted : List (ML.CItem × ℚ)) (cat : String)
    (hgt : limit < sorted.length)
    (hnb : limit ≤ (ML.walk limit sorted).length) :
    (ML.diversitySelect limit sorted).countP (fun y => y.1.category == cat)
      ≤ max 3 ((4 * limit - 1) / 5 + 1) := by
  have hwalk := walkGo_countP_le limit cat sorted [] (by simp)
  simp only [ML.diversitySelect]
  rw [if_pos hgt, if_neg (not_lt.2 hnb)]
  exact le_trans (List.Sublist.countP_le _ (List.take_sublist _ _)) hwalk

/-- Witness pool for the amended C5 bound. -/
def c5wpool : List (ML.CItem × ℚ) :=
  [(⟨"a1", "A", "s", 1, 0⟩, 9), (⟨"b1", "B", "s", 1, 0⟩, 8),
   (⟨"b2", "B", "s", 1, 0⟩, 7), (⟨"b3", "B", "s", 1, 0⟩, 6),
   (⟨"b4", "B", "s", 1, 0⟩, 5), (⟨"b5", "B", "s", 1, 0⟩, 4)]

/-- Witness for the amended C5: a concrete top-4 request with no backfill
where the per-category bound `max 3 ((4*4-1)/5 + 1) = 4` holds. -/
theorem C5_witness :
    4 < c5wpool.length ∧ 4 ≤ (ML.walk 4 c5wpool).length
    ∧ (ML.diversitySelect 4 c5wpool).countP (fun y => y.1.category == "B")
        ≤ max 3 ((4 * 4 - 1) / 5 + 1) := by
  have hw : ML.walk 4 c5wpool =
      [(⟨"a1", "A", "s", 1, 0⟩, 9), (⟨"b1", "B", "s", 1, 0⟩, 8),
       (⟨"b2", "B", "s", 1, 0⟩, 7), (⟨"b3", "B", "s", 1, 0⟩, 6)] := by
    norm_num [ML.walk, ML.walkGo, c5wpool]
  exact ⟨by decide, by rw [hw]; decide,
    C5_amended 4 c5wpool "B" (by decide) (by rw [hw]; decide)⟩

/-- **C6** (confirmed).  True cold start: with no interactions and empty
explicit preference weights, no affinity or preference signal exists, so
the candidate set is the full recent window minus (nothing) interacted,
and the ranking/diversity stage still returns `min limit |window|` items
without error. -/
theorem C6_cold_start (allContent : List ML.CItem) (limit : ℕ) (predict : ML.CItem → ℚ)
    (hnd : allContent.Nodup) :
    ML.generateCandidates [] [] allContent = allContent
    ∧ (allContent ≠ [] →
        (ML.recommendML predict [] [] allContent limit).length = min limit allContent.length) := by
  have hcand : ML.generateCandidates [] [] allContent = allContent := by
    simp [ML.generateCandidates, ML.buildPrefCounters, ML.topThree, ML.sortCounter,
      ML.addExplicit]
  refine ⟨hcand, fun hne => ?_⟩
  have hmapnd : (allContent.map (fun c => (c, predict c))).Nodup :=
    hnd.map (fun a b h => congrArg Prod.fst h)
  have hsortnd : (RE.sortDescBy (fun p => p.2) (allContent.map (fun c => (c, predict c)))).Nodup :=
    (sortDescBy_perm _ _).nodup_iff.2 hmapnd
  have hempty : allContent.isEmpty = false := by
    cases allContent
    · exact absurd rfl hne
    · rfl
  simp only [ML.recommendML, hcand, hempty, Bool.false_eq_true, if_false]
  rw [List.length_map, diversitySelect_length _ _ hsortnd,
    (sortDescBy_perm _ _).length_eq, List.length_map]

/-- Witness for C6 at the engine's own mock window: the cold-start
candidate set is the whole window and a top-3 request returns 3 items. -/
theorem C6_witness :
    ML.mockContentML.Nodup
    ∧ ML.mockContentML ≠ []
    ∧ ML.generateCandidates [] [] ML.mockContentML = ML.mockContentML
    ∧ (ML.recommendML (fun _ => 0) [] [] ML.mockContentML 3).length
        = min 3 ML.mockContentML.length :=
  ⟨by decide, by decide, (C6_cold_start ML.mockContentML 3 (fun _ => 0) (by decide)).1,
   (C6_cold_start ML.mockContentML 3 (fun _ => 0) (by decide)).2 (by decide)⟩

/-- **C4** (counterexample).  Two ContentItems with identical URLs where
NEITHER survives the filter run: both are dropped before duplicate
detection (content shorter than 100 characters after cleaning), so
"exactly one survives" fails — the claim holds only in the
at-most-one direction. -/
theorem C4_counterexample :
    (CF.process_content c4oracle id [] [c4a, c4b]).outs
        = [(c4a, CF.Verdict.tooShort), (c4b, CF.Verdict.tooShort)]
    ∧ c4a.url = c4b.url
    ∧ (CF.process_content c4oracle id [] [c4a, c4b]).outs.countP
        (fun p => p.2.isKept) = 0 := by
  refine ⟨by decide, by decide, by decide⟩

/-- **C4** (amended).  For every pair of ContentItems sharing an identical
nonempty (stripped) url, AT MOST one of the two survives a filter run —
never both, because a kept item enters the duplicate-comparison window and
URL matching rejects any later item with the same url; but both can be
dropped (e.g. as too short or low quality), so "never neither" does not
hold. -/
theorem C4_amended (o : CF.DupOracle) (clean : String → String)
    (existing batch : List CF.Item) (u : String) (hu : u ≠ "") :
    ((CF.process_content o clean existing batch).outs.countP
      (fun p => p.2.isKept && (pyStrip p.1.url == u))) ≤ 1 := by
  apply process_url_aux o clean u hu batch ⟨existing, []⟩
  · simp
  · intro h
    simp at h

/-- Witness for the amended C4: the two-item same-URL batch of the
counterexample run keeps at most one item with that URL. -/
theorem C4_witness :
    ("http://dup.example/x" : String) ≠ ""
    ∧ ((CF.process_content c4oracle id [] [c4a, c4b]).outs.countP
        (fun p => p.2.isKept && (pyStrip p.1.url == "http://dup.example/x"))) ≤ 1 :=
  ⟨by decide, C4_amended c4oracle id [] [c4a, c4b] "http://dup.example/x" (by decide)⟩

/-- Witness for C10: a concrete CLI run (with a malformed `rating_weight`
that makes `recommend` raise, exercising the mock fallback) returns
`min(limit, 5)` items, and a concrete ML run returns at most `limit`. -/
theorem C10_witness :
    RE.cliRecommend (some (.dict [("rating_weight", .str "boom")])) [] [] [] (.ok []) 2
        = Except.ok (RE.mockContent.take 2)
    ∧ (RE.mockContent.take 2).length ≤ 2
    ∧ (ML.recommendML (fun _ => 0) [] [] [] 2).length ≤ 2 :=
  ⟨rfl,
   C10_limit_bound.1 (some (.dict [("rating_weight", .str "boom")])) [] [] [] (.ok []) 2
     (RE.mockContent.take 2) rfl,
   C10_limit_bound.2 (fun _ => 0) [] [] [] 2⟩

end GlovePost
